import Mathlib

/- Verification of the TS-2000 command codec (chirp/drivers/ts2000.py).

   The wire format is ASCII; we embed wire strings as `List Char`.
   Numeric wire fields are rendered with Python-style `%i` / `%0Ni`
   formatting (`fmtInt` / `fmtPad`) and parsed with `pyInt`, a model of
   Python's `int()` restricted to nonempty all-digit strings (the only
   shape the protocol's fixed-width numeric fields take).  Python string
   slicing `s[a:b]` is `pySlice`, single-character subscripts are
   `List.get?` (an out-of-range subscript raises in Python, hence
   `Option`), and list subscripts (which accept negative indices) are
   `pyGet`.  Floating-point table entries (tones in tenths of Hz, tuning
   steps in hundredths of kHz) are embedded as scaled naturals; all the
   source does with them is exact equality, `.index` and subscripting, so
   the scaling is a faithful injective renaming. -/

/-- Python string slice `s[a:b]` (for `a ≤ b`): drop `a`, keep `b - a`. -/
def pySlice (s : List Char) (a b : Nat) : List Char :=
  (s.drop a).take (b - a)

/-- Accumulator pass of decimal parsing: `parseRaw "123" = 123`. -/
def parseRaw (s : List Char) : Nat :=
  s.foldl (fun a c => a * 10 + (c.toNat - 48)) 0

/-- Python `int()` on the protocol's numeric fields: succeeds exactly on a
nonempty string of decimal digits. -/
def pyInt (s : List Char) : Option Nat :=
  if s ≠ [] ∧ s.all Char.isDigit = true then some (parseRaw s) else none

/-- Fuel-driven rendering of a natural in decimal (no padding). -/
def fmtIntAux : Nat → Nat → List Char
  | 0, _ => []
  | fuel + 1, n =>
    if n < 10 then [Nat.digitChar n]
    else fmtIntAux fuel (n / 10) ++ [Nat.digitChar (n % 10)]

/-- Python `"%i" % n` for a natural `n`. -/
def fmtInt (n : Nat) : List Char := fmtIntAux (n + 1) n

/-- Python `"%0Ni" % n`: zero-pad `fmtInt n` on the left to width `w`. -/
def fmtPad (w n : Nat) : List Char :=
  List.replicate (w - (fmtInt n).length) '0' ++ fmtInt n

/-- Python list subscript with an `Int` index (negative indexes from the
end; out of range raises, hence `Option`). -/
def pyGet {α : Type} (l : List α) (i : Int) : Option α :=
  if i < 0 then
    if (l.length : Int) + i < 0 then none
    else l.get? ((l.length : Int) + i).toNat
  else l.get? i.toNat

/-- Python `list.index`: position of the first occurrence, if any. -/
def idx? {α : Type} [DecidableEq α] : List α → α → Option Nat
  | [], _ => none
  | a :: l, x => if a = x then some 0 else (idx? l x).map (· + 1)

/-- Python dict subscript for a table with `Nat` keys. -/
def dictGet {β : Type} (d : List (Nat × β)) (k : Nat) : Option β :=
  (d.find? (fun p => decide (p.1 = k))).map (·.2)

/-- Modelled from the spec: `util.get_dict_rev` (outside src/) inverts a
table, mapping a value back to its key; our tables have pairwise distinct
values, so first match suffices.  A missing value raises KeyError. -/
def get_dict_rev {β : Type} [DecidableEq β] (d : List (Nat × β)) (v : β) : Option Nat :=
  (d.find? (fun p => decide (p.2 = v))).map (·.1)

/-- `l` is a leading segment of `m` (helper for the substring test). -/
def isPrefixB : List Char → List Char → Bool
  | [], _ => true
  | _ :: _, [] => false
  | a :: l, b :: m => decide (a = b) && isPrefixB l m

/-- `l` occurs as a contiguous segment of `m`. -/
def isInfixB (l : List Char) : List Char → Bool
  | [] => l.isEmpty
  | b :: m => isPrefixB l (b :: m) || isInfixB l m

/-- Python's `sub in s` substring test on strings. -/
def pyInStr (sub s : String) : Bool := isInfixB sub.toList s.toList

/-- How a spec-builder run aborts: a failed `util.get_dict_rev` lookup
(KeyError), a failed `list.index` (ValueError), or the defensive
unsupported-duplex branch (which logs and then crashes: `LOG` is not even
defined in the module, and `duplex` stays unbound). -/
inductive SpecErr : Type where
  | keyError : SpecErr
  | valueError : SpecErr
  | unsupportedDuplex : SpecErr
deriving DecidableEq, Repr

deriving instance DecidableEq for Except

/-- `list.index`, raising `ValueError` when the element is absent. -/
def idxE {α : Type} [DecidableEq α] (l : List α) (x : α) : Except SpecErr Nat :=
  match idx? l x with
  | some i => Except.ok i
  | none => Except.error SpecErr.valueError

/-- Dict subscript raising `KeyError` when the key is absent. -/
def keyE {α : Type} : Option α → Except SpecErr α
  | some x => Except.ok x
  | none => Except.error SpecErr.keyError

/-- Modelled from the spec: the in-memory Channel Record
(`chirp_common.Memory`, outside src/), restricted to the fields this
driver reads or writes.  `tuning_step` is in hundredths of kHz and
`rtone`/`ctone` in tenths of Hz (the source stores floats and only ever
compares, indexes and subscripts them). -/
structure Memory : Type where
  number : Nat
  extd_number : List Char
  empty : Bool
  freq : Nat
  mode : String
  tuning_step : Nat
  skip : String
  tmode : String
  rtone : Nat
  ctone : Nat
  dtcs : Nat
  duplex : String
  offset : Nat
  name : List Char
  immutable : List String
deriving DecidableEq, Repr

/-- Modelled from the spec: a fresh Channel Record as `Memory()`
constructs it (an unprogrammed record; the precise default values are
immaterial to the claims, which only assert that untouched fields keep
whatever the fresh record held). -/
def Memory.init : Memory :=
  { number := 0, extd_number := [], empty := false, freq := 0,
    mode := "FM", tuning_step := 500, skip := "", tmode := "",
    rtone := 885, ctone := 885, dtcs := 23, duplex := "", offset := 0,
    name := [], immutable := [] }

/-- `_UPPER = 289`: the last normal channel number. -/
def _UPPER : Nat := 289

/-- `_MODES`: wire mode code to mode name. -/
def _MODES : List (Nat × String) :=
  [(1, "LSB"), (2, "USB"), (3, "CW"), (4, "FM"),
   (5, "AM"), (6, "FSK"), (7, "CW-R"), (9, "FSK-R")]

/-- `_SSB_STEPS = (1, 2.5, 5, 10)` in hundredths of kHz. -/
def _SSB_STEPS : List Nat := [100, 250, 500, 1000]

/-- `_FM_STEPS = (5.0, 6.25, 10.0, 12.5, 15.0, 20.0, 25.0, 30.0, 50.0,
100.0)` in hundredths of kHz. -/
def _FM_STEPS : List Nat :=
  [500, 625, 1000, 1250, 1500, 2000, 2500, 3000, 5000, 10000]

/-- `_TMODES = ["", "Tone", "TSQL", "DTCS"]`. -/
def _TMODES : List String := ["", "Tone", "TSQL", "DTCS"]

/-- `_DUPLEX = {0: "", 1: "+", 2: "-", 3: "=", 4: "split"}`. -/
def _DUPLEX : List (Nat × String) :=
  [(0, ""), (1, "+"), (2, "-"), (3, "="), (4, "split")]

/-- Modelled from the spec: the fixed ordered tone table
(`chirp_common.OLD_TONES` with 69.3 removed, outside src/), in tenths of
Hz.  The claims depend only on this being a fixed duplicate-free table of
38 entries. -/
def _TONES : List Nat :=
  [670, 719, 744, 770, 797, 825, 854, 885, 915, 948,
   974, 1000, 1035, 1072, 1109, 1148, 1188, 1230, 1273, 1318,
   1365, 1413, 1462, 1514, 1567, 1622, 1679, 1738, 1799, 1862,
   1928, 2035, 2107, 2181, 2257, 2336, 2418, 2503]

/-- Modelled from the spec: the fixed DTCS code table
(`chirp_common.DTCS_CODES`, outside src/), 104 duplicate-free codes. -/
def chirp_DTCS_CODES : List Nat :=
  [23, 25, 26, 31, 32, 36, 43, 47, 51, 53,
   54, 65, 71, 72, 73, 74, 114, 115, 116, 122,
   125, 131, 132, 134, 143, 145, 152, 155, 156, 162,
   165, 172, 174, 205, 212, 223, 225, 226, 243, 244,
   245, 246, 251, 252, 255, 261, 263, 265, 266, 271,
   274, 306, 311, 315, 325, 331, 332, 343, 346, 351,
   356, 364, 365, 371, 411, 412, 413, 423, 431, 432,
   445, 446, 452, 454, 455, 462, 464, 465, 466, 503,
   506, 516, 523, 526, 532, 546, 565, 606, 612, 624,
   627, 631, 632, 654, 662, 664, 703, 712, 723, 731,
   732, 734, 743, 754]

/-- `_SPECIAL_CHANS`: labels of the twenty sweep-limit sub-channels, in
extended-index order (logical 290 is "290 Start", 291 is "290 End", ...,
309 is "299 End"). -/
def _SPECIAL_CHANS : List String :=
  ["290 Start", "290 End", "291 Start", "291 End",
   "292 Start", "292 End", "293 Start", "293 End",
   "294 Start", "294 End", "295 Start", "295 End",
   "296 Start", "296 End", "297 Start", "297 End",
   "298 Start", "298 End", "299 Start", "299 End"]

/-- The field set `_parse_mem` marks read-only on sweep-limit
sub-channels. -/
def IMMUTABLE_FIELDS : List String :=
  ["name", "tmode", "rtone", "ctone", "dtcs", "duplex", "offset", "mode",
   "tuning_step", "skip"]

/-- Modelled from the spec: `_index_to_memid` (family base class, outside
src/) renders a logical index as its memory id; beyond `_UPPER` that is
the `_SPECIAL_CHANS` label of the derived sub-channel. -/
def _index_to_memid (i : Nat) : List Char :=
  if i > _UPPER then ((_SPECIAL_CHANS.get? (i - _UPPER - 1)).getD "").toList
  else fmtPad 3 i

/-- `_get_range_end_mem`: map an extended logical index to its wire-side
(pair-half, base wire number) tuple. -/
def _get_range_end_mem (index : Nat) : Nat × Nat :=
  let base := index - _UPPER - 1
  (base % 2, base / 2 + _UPPER + 1)

/-- The decode-side index recomputation in `_parse_mem`:
`mnum = _UPPER + (mnum - _UPPER) * 2 - 1`, plus one when the response's
sub-flag digit is '1'. -/
def parse_remap (mnum0 : Nat) (isEnd : Bool) : Nat :=
  let m := _UPPER + (mnum0 - _UPPER) * 2 - 1
  if isEnd then m + 1 else m

/-- The trailing field decodes of `_parse_mem` (skip, tone mode, tones,
DTCS, duplex, offset, name), split out so each `do` block stays small. -/
def parse_fields (mnum : Nat) (extd : List Char) (freq : Nat) (mode : String)
    (step : Nat) (_p6 _p7 : Char) (_p8 _p9 _p10 : List Char) (_p12 : Char)
    (_p13 _p16 : List Char) : Option Memory := do
  let skn ← pyInt [_p6]
  let skip ← pyGet (["", "S"] : List String) (skn : Int)
  let tmn ← pyInt [_p7]
  let tmode ← pyGet _TMODES (tmn : Int)
  let rtn ← pyInt _p8
  let rtone ← pyGet _TONES ((rtn : Int) - 1)
  let ctn ← pyInt _p9
  let ctone ← pyGet _TONES ((ctn : Int) - 1)
  let dcn ← pyInt _p10
  let dtcs ← pyGet chirp_DTCS_CODES (dcn : Int)
  let dpn ← pyInt [_p12]
  let duplex ← dictGet _DUPLEX dpn
  let offset ← pyInt _p13
  return { Memory.init with
           number := mnum, extd_number := extd, freq := freq,
           mode := mode, tuning_step := step, skip := skip,
           tmode := tmode, rtone := rtone, ctone := ctone, dtcs := dtcs,
           duplex := duplex, offset := offset, name := _p16 }

/-- The part of `_parse_mem` after the record number is resolved: the
empty-flag check, then frequency, mode and tuning step, then the
sweep-limit immutable early return, then the remaining fields. -/
def parse_tail (mnum : Nat) (extd : List Char) (isEnd : Bool)
    (_p4 : List Char) (_p5 _p6 _p7 : Char) (_p8 _p9 _p10 : List Char)
    (_p12 : Char) (_p13 _p14 _p16 : List Char) : Option Memory := do
  if _p5 = '0' then
    return { Memory.init with
             number := mnum, extd_number := extd, empty := true,
             immutable :=
               if mnum > _UPPER ∧ isEnd = true then IMMUTABLE_FIELDS else [] }
  let freq ← pyInt _p4
  let mcode ← pyInt [_p5]
  let mode ← dictGet _MODES mcode
  let stn ← pyInt _p14
  let step ←
    if mode ∈ (["AM", "FM"] : List String) then pyGet _FM_STEPS (stn : Int)
    else pyGet _SSB_STEPS (stn : Int)
  if mnum > _UPPER ∧ isEnd = true then
    return { Memory.init with
             number := mnum, extd_number := extd, freq := freq,
             mode := mode, tuning_step := step,
             immutable := IMMUTABLE_FIELDS }
  parse_fields mnum extd freq mode step _p6 _p7 _p8 _p9 _p10 _p12 _p13 _p16

/-- `_parse_mem`: decode a raw wire record (the full response string) into
a Channel Record.  Field offsets follow the source: the string is
left-padded by one character, then sliced at the documented positions;
the extended-range renumbering consults the sub-flag digit `spec[3]`. -/
def _parse_mem (spec0 : List Char) : Option Memory := do
  let spec := ' ' :: spec0
  let _p2 ← spec.get? 4
  let _p3 := pySlice spec 5 7
  let _p4 := pySlice spec 7 18
  let _p5 ← spec.get? 18
  let _p6 ← spec.get? 19
  let _p7 ← spec.get? 20
  let _p8 := pySlice spec 21 23
  let _p9 := pySlice spec 23 25
  let _p10 := pySlice spec 25 28
  let _p12 ← spec.get? 29
  let _p13 := pySlice spec 30 39
  let _p14 := pySlice spec 39 41
  let _p16 := pySlice spec 42 49
  let mnum0 ← pyInt (_p2 :: _p3)
  if mnum0 > _UPPER then do
    let f ← spec.get? 3
    let m := parse_remap mnum0 (f == '1')
    parse_tail m (_index_to_memid m) (f == '1')
      _p4 _p5 _p6 _p7 _p8 _p9 _p10 _p12 _p13 _p14 _p16
  else
    parse_tail mnum0 Memory.init.extd_number false
      _p4 _p5 _p6 _p7 _p8 _p9 _p10 _p12 _p13 _p14 _p16

/-- `_parse_split`: overlay the secondary split-frequency response onto an
already-decoded record. -/
def _parse_split (mem : Memory) (spec0 : List Char) : Option Memory := do
  let spec := ' ' :: spec0
  let split_freq ← pyInt (pySlice spec 7 18)
  if mem.freq ≠ split_freq then
    return { mem with duplex := "split", offset := split_freq }
  return mem

/-- The duplex block of `_make_mem_spec`: the source's substring guard
`mem.duplex in " +-"`, then the reverse table lookup (KeyError when the
value is absent), the "split" case (code 0, offset forced to 0), and the
defensive unsupported-duplex branch. -/
def duplexResolve (mem : Memory) : Except SpecErr (Nat × Nat) :=
  if pyInStr mem.duplex " +-" then
    match get_dict_rev _DUPLEX mem.duplex with
    | some d => Except.ok (d, mem.offset)
    | none => Except.error SpecErr.keyError
  else if mem.duplex = "split" then Except.ok (0, 0)
  else Except.error SpecErr.unsupportedDuplex

/-- The duplex block of `_make_split_spec` (no offset is computed). -/
def duplexResolveSplit (mem : Memory) : Except SpecErr Nat :=
  if pyInStr mem.duplex " +-" then
    match get_dict_rev _DUPLEX mem.duplex with
    | some d => Except.ok d
    | none => Except.error SpecErr.keyError
  else if mem.duplex = "split" then Except.ok 0
  else Except.error SpecErr.unsupportedDuplex

/-- The tuning-step block of both spec builders: index into `_FM_STEPS`
when the record's mode is AM or FM, else into `_SSB_STEPS`. -/
def stepResolve (mem : Memory) : Except SpecErr Nat :=
  if mem.mode ∈ (["AM", "FM"] : List String) then
    idxE _FM_STEPS mem.tuning_step
  else idxE _SSB_STEPS mem.tuning_step

/-- The tone block of both spec builders: all three fields encode as 0
when the tone mode is off, else rtone/ctone are 1-indexed positions in
the tone table and the DTCS code a 0-indexed position in its table. -/
def toneResolve (mem : Memory) : Except SpecErr (Nat × Nat × Nat) :=
  if mem.tmode = "" then Except.ok (0, 0, 0)
  else do
    let r ← idxE _TONES mem.rtone
    let c ← idxE _TONES mem.ctone
    let d ← idxE chirp_DTCS_CODES mem.dtcs
    Except.ok (r + 1, c + 1, d)

/-- `_make_mem_spec`: build the thirteen wire fields of a channel write. -/
def _make_mem_spec (mem : Memory) : Except SpecErr (List (List Char)) := do
  let (duplex, offset) ← duplexResolve mem
  let step ← stepResolve mem
  let (rtone, ctone, dtcs) ← toneResolve mem
  let modeCode ← keyE (get_dict_rev _MODES mem.mode)
  let tmodeIdx ← idxE _TMODES mem.tmode
  Except.ok
    [fmtPad 11 mem.freq,
     fmtInt modeCode,
     fmtInt (if mem.skip = "S" then 1 else 0),
     fmtInt tmodeIdx,
     fmtPad 2 rtone,
     fmtPad 2 ctone,
     fmtPad 3 dtcs,
     ['0'],
     fmtInt duplex,
     fmtPad 9 offset,
     fmtPad 2 step,
     ['0'],
     mem.name]

/-- `_make_split_spec`: build the wire fields of the secondary split
write (split frequency in the frequency slot, zero in the offset slot). -/
def _make_split_spec (mem : Memory) : Except SpecErr (List (List Char)) := do
  let duplex ← duplexResolveSplit mem
  let step ← stepResolve mem
  let (rtone, ctone, dtcs) ← toneResolve mem
  let modeCode ← keyE (get_dict_rev _MODES mem.mode)
  let tmodeIdx ← idxE _TMODES mem.tmode
  Except.ok
    [fmtPad 11 mem.offset,
     fmtInt modeCode,
     fmtInt (if mem.skip = "S" then 1 else 0),
     fmtInt tmodeIdx,
     fmtPad 2 rtone,
     fmtPad 2 ctone,
     fmtPad 3 dtcs,
     ['0'],
     fmtInt duplex,
     fmtPad 9 0,
     fmtPad 2 step,
     ['0'],
     mem.name]

/-- `_ARG_DELIMITER = ""`: this device echoes the value right after the
key. -/
def _ARG_DELIMITER : List Char := []

/-- `_CMD_DELIMITER = ";"`. -/
def _CMD_DELIMITER : List Char := [';']

/-- Modelled from the spec: the two collaborator calls `_kenwood_set`
makes (the priming helper `_do_prerequisite` and the transport
`_command`, both outside src/); only the call sequence matters here. -/
inductive RigAction : Type where
  | doPrerequisite (cmd : List Char) (a b : Bool) : RigAction
  | command (tx : List Char) : RigAction
deriving DecidableEq, Repr

/-- `_kenwood_set`: prime, send `cmd + value + ";" + cmd`, prime again,
then verify the echo `resp` equals `cmd + value` (the argument delimiter
is empty).  Returns the collaborator call trace and the outcome. -/
def _kenwood_set (cmd value resp : List Char) :
    List RigAction × Except (List Char) Unit :=
  ([RigAction.doPrerequisite cmd false true,
    RigAction.command (cmd ++ value ++ _CMD_DELIMITER ++ cmd),
    RigAction.doPrerequisite cmd false false],
   if resp = cmd ++ _ARG_DELIMITER ++ value then Except.ok ()
   else Except.error (("Radio refused to set ").toList ++ cmd))

/-- `_kenwood_simple_get`: given the issued key `cmd` and the raw
response, return `(key, payload)` when the response is key-prefixed,
treat a bare key echo as an empty payload, otherwise raise. -/
def _kenwood_simple_get (cmd resp : List Char) :
    Except (List Char) (List Char × List Char) :=
  if resp.take cmd.length = cmd then Except.ok (cmd, resp.drop cmd.length)
  else if resp = cmd then Except.ok (resp, [])
  else Except.error (("Radio refused to return ").toList ++ cmd)

/-- Concrete Channel Record exercising the duplex `"="` encode path: all
other fields hold valid table values. -/
def memEq : Memory :=
  { Memory.init with
    number := 5, freq := 14205000, mode := "USB",
    tuning_step := 250, skip := "", tmode := "Tone", rtone := 885,
    ctone := 885, dtcs := 23, duplex := "=", offset := 0,
    name := ['T', 'E', 'S', 'T'] }

/-- Concrete Channel Record whose duplex is the single space, a value
outside the known duplex set that nevertheless passes the source's
substring guard. -/
def memSpace : Memory := { Memory.init with duplex := " " }

/-- A concrete non-empty wire response for sweep-limit base 290 with
sub-flag digit '0' (the record the device labels "290 Start"). -/
def rawStart290 : List Char :=
  ("MR0290" ++ "00014200000" ++ "4" ++ "0" ++ "1" ++ "08" ++ "08" ++
   "000" ++ "0" ++ "0" ++ "000000000" ++ "00" ++ "0" ++ "HELLO").toList

-- ===================================================================
-- Lemmas: decimal rendering and parsing
-- ===================================================================

lemma parseRaw_snoc (s : List Char) (c : Char) :
    parseRaw (s ++ [c]) = parseRaw s * 10 + (c.toNat - 48) := by
  simp [parseRaw, List.foldl_append]

lemma parseRaw_replicate_zero (k : Nat) :
    parseRaw (List.replicate k '0') = 0 := by
  induction k with
  | zero => rfl
  | succ k ih =>
    simpa [parseRaw, List.replicate_succ, List.foldl_cons] using ih

lemma parseRaw_pad (k : Nat) (s : List Char) :
    parseRaw (List.replicate k '0' ++ s) = parseRaw s := by
  have h0 : parseRaw (List.replicate k '0') = 0 := parseRaw_replicate_zero k
  simp only [parseRaw, List.foldl_append]
  rw [show (List.replicate k '0').foldl
        (fun a c => a * 10 + (c.toNat - 48)) 0 = 0 from h0]

lemma digitChar_isDigit {n : Nat} (h : n < 10) :
    (Nat.digitChar n).isDigit = true := by
  interval_cases n <;> decide

lemma digitChar_toNat {n : Nat} (h : n < 10) :
    (Nat.digitChar n).toNat - 48 = n := by
  interval_cases n <;> decide

lemma digitChar_ne_zero {n : Nat} (h0 : 0 < n) (h : n < 10) :
    ¬ (Nat.digitChar n = '0') := by
  interval_cases n <;> decide

lemma pyInt_digitChar {n : Nat} (h : n < 10) :
    pyInt [Nat.digitChar n] = some n := by
  simp [pyInt, digitChar_isDigit h, parseRaw, digitChar_toNat h]

lemma fmtIntAux_ok : ∀ fuel n, n < fuel →
    fmtIntAux fuel n ≠ [] ∧ (fmtIntAux fuel n).all Char.isDigit = true ∧
      parseRaw (fmtIntAux fuel n) = n := by
  intro fuel
  induction fuel with
  | zero => intro n h; omega
  | succ fuel ih =>
    intro n h
    by_cases h10 : n < 10
    · simp [fmtIntAux, h10, parseRaw, digitChar_isDigit h10,
            digitChar_toNat h10]
    · have hdiv : n / 10 < fuel := by
        have h1 : n / 10 < n := Nat.div_lt_self (by omega) (by omega)
        omega
      obtain ⟨hne, hdig, hval⟩ := ih (n / 10) hdiv
      rw [fmtIntAux]
      simp only [h10, if_false]
      refine ⟨by simp, ?_, ?_⟩
      · simp [List.all_append, hdig, digitChar_isDigit (Nat.mod_lt n (by omega))]
      · rw [parseRaw_snoc, hval, digitChar_toNat (Nat.mod_lt n (by omega))]
        omega

lemma fmtIntAux_len : ∀ fuel n w, n < fuel → 1 ≤ w → n < 10 ^ w →
    (fmtIntAux fuel n).length ≤ w := by
  intro fuel
  induction fuel with
  | zero => intro n w h; omega
  | succ fuel ih =>
    intro n w h hw hpow
    by_cases h10 : n < 10
    · simp [fmtIntAux, h10]; omega
    · have hdiv : n / 10 < fuel := by
        have h1 : n / 10 < n := Nat.div_lt_self (by omega) (by omega)
        omega
      have hw2 : 2 ≤ w := by
        by_contra hc
        have : w = 1 := by omega
        subst this
        simp at hpow
        omega
      have hp : n / 10 < 10 ^ (w - 1) := by
        have h2 : 10 ^ w = 10 * 10 ^ (w - 1) := by
          conv_lhs => rw [show w = (w - 1) + 1 by omega]
          rw [pow_succ']
        exact Nat.div_lt_of_lt_mul (by omega)
      have := ih (n / 10) (w - 1) hdiv (by omega) hp
      rw [fmtIntAux]
      simp only [h10, if_false, List.length_append, List.length_singleton]
      omega

lemma fmtInt_ne_nil (n : Nat) : fmtInt n ≠ [] :=
  (fmtIntAux_ok (n + 1) n (by omega)).1

lemma fmtInt_all_digits (n : Nat) : (fmtInt n).all Char.isDigit = true :=
  (fmtIntAux_ok (n + 1) n (by omega)).2.1

lemma parseRaw_fmtInt (n : Nat) : parseRaw (fmtInt n) = n :=
  (fmtIntAux_ok (n + 1) n (by omega)).2.2

lemma fmtInt_len_le {n w : Nat} (hw : 1 ≤ w) (h : n < 10 ^ w) :
    (fmtInt n).length ≤ w :=
  fmtIntAux_len (n + 1) n w (by omega) hw h

lemma fmtInt_lt10 {n : Nat} (h : n < 10) : fmtInt n = [Nat.digitChar n] := by
  simp [fmtInt, fmtIntAux, h]

lemma pyInt_fmtInt (n : Nat) : pyInt (fmtInt n) = some n := by
  simp [pyInt, fmtInt_ne_nil n, fmtInt_all_digits n, parseRaw_fmtInt n]

lemma fmtPad_all_digits (w n : Nat) : (fmtPad w n).all Char.isDigit = true := by
  simp [fmtPad, List.all_append, fmtInt_all_digits n]

lemma fmtPad_ne_nil (w n : Nat) : fmtPad w n ≠ [] := by
  intro h
  rcases List.append_eq_nil.mp h with ⟨h1, h2⟩
  exact fmtInt_ne_nil n h2

lemma parseRaw_fmtPad (w n : Nat) : parseRaw (fmtPad w n) = n := by
  rw [fmtPad, parseRaw_pad, parseRaw_fmtInt]

lemma pyInt_fmtPad (w n : Nat) : pyInt (fmtPad w n) = some n := by
  simp [pyInt, fmtPad_ne_nil w n, fmtPad_all_digits w n, parseRaw_fmtPad w n]

lemma fmtPad_length {w n : Nat} (hw : 1 ≤ w) (h : n < 10 ^ w) :
    (fmtPad w n).length = w := by
  have := fmtInt_len_le hw h
  simp [fmtPad, List.length_append, List.length_replicate]
  omega

-- ===================================================================
-- Lemmas: positional access into concatenated wire strings
-- ===================================================================

lemma get?_append_add : ∀ (pre post : List Char) (k : Nat),
    (pre ++ post).get? (pre.length + k) = post.get? k := by
  intro pre
  induction pre with
  | nil => intro post k; simp
  | cons a l ih =>
    intro post k
    have h : (a :: l).length + k = (l.length + k) + 1 := by
      simp [List.length_cons]; omega
    rw [h]
    simpa using ih post k

lemma get?_at {s : List Char} (pre : List Char) (c : Char) (post : List Char)
    {i : Nat} (hs : s = pre ++ c :: post) (hi : pre.length = i) :
    s.get? i = some c := by
  subst hs
  subst hi
  have := get?_append_add pre (c :: post) 0
  simpa using this

lemma pySlice_at {s : List Char} (pre mid post : List Char) {a b : Nat}
    (hs : s = pre ++ (mid ++ post)) (ha : pre.length = a)
    (hb : b = a + mid.length) : pySlice s a b = mid := by
  subst hs
  subst ha
  subst hb
  rw [pySlice, List.drop_left]
  have h : pre.length + mid.length - pre.length = mid.length := by omega
  rw [h, List.take_left]

lemma pySlice_last {s : List Char} (pre tail : List Char) {a b : Nat}
    (hs : s = pre ++ tail) (ha : pre.length = a)
    (hb : tail.length ≤ b - a) : pySlice s a b = tail := by
  subst hs
  subst ha
  rw [pySlice, List.drop_left]
  exact List.take_of_length_le hb

-- ===================================================================
-- Lemmas: table lookups
-- ===================================================================

lemma idx?_get {α : Type} [DecidableEq α] :
    ∀ (l : List α) (x : α) (i : Nat), idx? l x = some i → l.get? i = some x := by
  intro l
  induction l with
  | nil => intro x i h; simp [idx?] at h
  | cons a l ih =>
    intro x i h
    rw [idx?] at h
    by_cases hax : a = x
    · simp [hax] at h
      subst hax
      subst h
      rfl
    · simp [hax] at h
      obtain ⟨j, hj, hij⟩ := h
      subst hij
      simpa using ih x j hj

lemma idx?_lt_length {α : Type} [DecidableEq α] :
    ∀ (l : List α) (x : α) (i : Nat), idx? l x = some i → i < l.length := by
  intro l x i h
  have := idx?_get l x i h
  by_contra hc
  rw [List.get?_eq_none.mpr (by omega)] at this
  exact Option.noConfusion this

lemma idx?_of_mem {α : Type} [DecidableEq α] :
    ∀ (l : List α) (x : α), x ∈ l → ∃ i, idx? l x = some i := by
  intro l
  induction l with
  | nil => intro x h; simp at h
  | cons a l ih =>
    intro x h
    by_cases hax : a = x
    · exact ⟨0, by simp [idx?, hax]⟩
    · have hx : x ∈ l := by
        rcases List.mem_cons.mp h with h1 | h1
        · exact absurd h1.symm hax
        · exact h1
      obtain ⟨i, hi⟩ := ih x hx
      exact ⟨i + 1, by simp [idx?, hax, hi]⟩

lemma idxE_of_idx? {α : Type} [DecidableEq α] {l : List α} {x : α} {i : Nat}
    (h : idx? l x = some i) : idxE l x = Except.ok i := by
  simp [idxE, h]

lemma pyGet_coe {α : Type} (l : List α) (n : Nat) :
    pyGet l (n : Int) = l.get? n := by
  simp [pyGet]

lemma pyGet_succ_sub_one {α : Type} (l : List α) (n : Nat) :
    pyGet l (((n + 1 : Nat) : Int) - 1) = l.get? n := by
  have h : ((n + 1 : Nat) : Int) - 1 = (n : Int) := by push_cast; ring
  rw [h, pyGet_coe]

-- ===================================================================
-- C1: sweep-limit index mapping round-trips
-- ===================================================================

/-- C1: for every extended logical index i in 290..309, composing the
wire-side mapping `_get_range_end_mem` with the decode-side recomputation
`parse_remap` used by `_parse_mem` (plus one exactly when the pair-half
is 1) yields i again. -/
theorem C1_sweep_index_roundtrip (i : Nat) (h1 : 290 ≤ i) (h2 : i ≤ 309) :
    parse_remap (_get_range_end_mem i).2
      (decide ((_get_range_end_mem i).1 = 1)) = i := by
  interval_cases i <;> decide

/-- Witness for C1 at the first derived index, 290. -/
theorem C1_sweep_index_roundtrip_witness :
    parse_remap (_get_range_end_mem 290).2
      (decide ((_get_range_end_mem 290).1 = 1)) = 290 :=
  C1_sweep_index_roundtrip 290 (by decide) (by decide)

-- ===================================================================
-- C7: settings get
-- ===================================================================

/-- C7: `_kenwood_simple_get` returns the payload after the key when the
response is key-prefixed; a response exactly equal to the key yields an
empty value rather than an error; any response not prefixed by the key
raises the radio-communication error "Radio refused to return X". -/
theorem C7_simple_get :
    (∀ cmd payload : List Char,
      _kenwood_simple_get cmd (cmd ++ payload) = Except.ok (cmd, payload)) ∧
    (∀ cmd : List Char, _kenwood_simple_get cmd cmd = Except.ok (cmd, [])) ∧
    (∀ cmd resp : List Char, resp.take cmd.length ≠ cmd →
      _kenwood_simple_get cmd resp =
        Except.error (("Radio refused to return ").toList ++ cmd)) := by
  refine ⟨?_, ?_, ?_⟩
  · intro cmd payload
    simp [_kenwood_simple_get, List.take_left, List.drop_left]
  · intro cmd
    simp [_kenwood_simple_get]
  · intro cmd resp h
    have hne : resp ≠ cmd := by
      intro he
      subst he
      exact h (List.take_of_length_le (le_refl _))
    simp [_kenwood_simple_get, h, hne]

/-- Witness for C7: a prefixed response, a bare-key response, and a
mismatched response, at concrete values. -/
theorem C7_simple_get_witness :
    _kenwood_simple_get ("IF").toList ("IF00123").toList =
      Except.ok (("IF").toList, ("00123").toList) ∧
    _kenwood_simple_get ("IF").toList ("IF").toList =
      Except.ok (("IF").toList, []) ∧
    _kenwood_simple_get ("IF").toList ("N").toList =
      Except.error (("Radio refused to return IF").toList) := by
  refine ⟨?_, C7_simple_get.2.1 ("IF").toList, ?_⟩
  · have := C7_simple_get.1 ("IF").toList ("00123").toList
    simpa using this
  · have := C7_simple_get.2.2 ("IF").toList ("N").toList (by decide)
    simpa using this

-- ===================================================================
-- C8: settings set sequencing and echo verification
-- ===================================================================

/-- C8: `_kenwood_set` sends `key + value + ";" + key`, invokes the
priming collaborator exactly once immediately before the send and once
immediately after, and raises "Radio refused to set X" exactly when the
echoed response differs from `key + value` (the argument delimiter being
empty). -/
theorem C8_set_sequence (cmd value resp : List Char) :
    (_kenwood_set cmd value resp).1 =
      [RigAction.doPrerequisite cmd false true,
       RigAction.command (cmd ++ value ++ [';'] ++ cmd),
       RigAction.doPrerequisite cmd false false] ∧
    ((_kenwood_set cmd value resp).2 =
        Except.error (("Radio refused to set ").toList ++ cmd) ↔
      resp ≠ cmd ++ value) := by
  constructor
  · simp [_kenwood_set, _CMD_DELIMITER]
  · by_cases h : resp = cmd ++ value
    · simp [_kenwood_set, _ARG_DELIMITER, h]
    · simp [_kenwood_set, _ARG_DELIMITER, h]

-- ===================================================================
-- C10: split overlay
-- ===================================================================

/-- C10: `_parse_split` sets duplex to "split" and offset to the decoded
split frequency exactly when that frequency differs from the record's
primary frequency; when equal the record is returned unchanged; in both
cases no field other than duplex and offset is modified. -/
theorem C10_parse_split (mem : Memory) (spec0 : List Char) (sf : Nat)
    (h : pyInt (pySlice (' ' :: spec0) 7 18) = some sf) :
    _parse_split mem spec0 =
      some (if mem.freq = sf then mem
            else { mem with duplex := "split", offset := sf }) ∧
    ∀ m', _parse_split mem spec0 = some m' →
      m'.number = mem.number ∧ m'.extd_number = mem.extd_number ∧
      m'.empty = mem.empty ∧ m'.freq = mem.freq ∧ m'.mode = mem.mode ∧
      m'.tuning_step = mem.tuning_step ∧ m'.skip = mem.skip ∧
      m'.tmode = mem.tmode ∧ m'.rtone = mem.rtone ∧
      m'.ctone = mem.ctone ∧ m'.dtcs = mem.dtcs ∧ m'.name = mem.name ∧
      m'.immutable = mem.immutable := by
  have hbody : _parse_split mem spec0 =
      some (if mem.freq = sf then mem
            else { mem with duplex := "split", offset := sf }) := by
    by_cases hf : mem.freq = sf
    · simp [_parse_split, h, hf]
    · simp [_parse_split, h, hf]
  refine ⟨hbody, ?_⟩
  intro m' hm'
  rw [hbody] at hm'
  by_cases hf : mem.freq = sf
  · simp [hf] at hm'
    subst hm'
    exact ⟨rfl, rfl, rfl, rfl, rfl, rfl, rfl, rfl, rfl, rfl, rfl, rfl, rfl⟩
  · simp [hf] at hm'
    subst hm'
    exact ⟨rfl, rfl, rfl, rfl, rfl, rfl, rfl, rfl, rfl, rfl, rfl, rfl, rfl⟩

/-- Witness for C10: a record with primary frequency 14205000 overlaid
with a differing split frequency 14210000. -/
theorem C10_parse_split_witness :
    _parse_split { Memory.init with freq := 14205000 }
        (("MR0005" ++ "00014210000").toList) =
      some (if ({ Memory.init with freq := 14205000 } : Memory).freq = 14210000
            then { Memory.init with freq := 14205000 }
            else { { Memory.init with freq := 14205000 } with
                   duplex := "split", offset := 14210000 }) :=
  (C10_parse_split { Memory.init with freq := 14205000 }
    (("MR0005" ++ "00014210000").toList) 14210000 (by decide)).1

-- ===================================================================
-- C5: empty-flag records decode to empty without parsing other fields
-- ===================================================================

lemma rest_get_of_len {rest : List Char} {k : Nat} (h : k < rest.length) :
    ∃ c, rest.get? k = some c := by
  cases hg : rest.get? k with
  | none =>
    have := List.get?_eq_none.mp hg
    omega
  | some c => exact ⟨c, rfl⟩

lemma parse_tail_empty (mnum : Nat) (extd : List Char) (isEnd : Bool)
    (_p4 : List Char) (_p6 _p7 : Char) (_p8 _p9 _p10 : List Char)
    (_p12 : Char) (_p13 _p14 _p16 : List Char) :
    parse_tail mnum extd isEnd _p4 '0' _p6 _p7 _p8 _p9 _p10 _p12 _p13
        _p14 _p16 =
      some { Memory.init with
             number := mnum, extd_number := extd, empty := true,
             immutable :=
               if mnum > _UPPER ∧ isEnd = true then IMMUTABLE_FIELDS
               else [] } := by
  simp [parse_tail]

lemma parse_mem_eval (c0 c1 f d1 d2 d3 x5 x6 x7 x12 : Char)
    (rest : List Char)
    (hd1 : d1.isDigit = true) (hd2 : d2.isDigit = true)
    (hd3 : d3.isDigit = true)
    (h5 : rest.get? 11 = some x5) (h6 : rest.get? 12 = some x6)
    (h7 : rest.get? 13 = some x7) (h12 : rest.get? 22 = some x12) :
    _parse_mem (c0 :: c1 :: f :: d1 :: d2 :: d3 :: rest) =
      (if parseRaw [d1, d2, d3] > _UPPER then
        parse_tail (parse_remap (parseRaw [d1, d2, d3]) (f == '1'))
          (_index_to_memid (parse_remap (parseRaw [d1, d2, d3]) (f == '1')))
          (f == '1')
          (pySlice (' ' :: c0 :: c1 :: f :: d1 :: d2 :: d3 :: rest) 7 18)
          x5 x6 x7
          (pySlice (' ' :: c0 :: c1 :: f :: d1 :: d2 :: d3 :: rest) 21 23)
          (pySlice (' ' :: c0 :: c1 :: f :: d1 :: d2 :: d3 :: rest) 23 25)
          (pySlice (' ' :: c0 :: c1 :: f :: d1 :: d2 :: d3 :: rest) 25 28)
          x12
          (pySlice (' ' :: c0 :: c1 :: f :: d1 :: d2 :: d3 :: rest) 30 39)
          (pySlice (' ' :: c0 :: c1 :: f :: d1 :: d2 :: d3 :: rest) 39 41)
          (pySlice (' ' :: c0 :: c1 :: f :: d1 :: d2 :: d3 :: rest) 42 49)
      else
        parse_tail (parseRaw [d1, d2, d3]) Memory.init.extd_number false
          (pySlice (' ' :: c0 :: c1 :: f :: d1 :: d2 :: d3 :: rest) 7 18)
          x5 x6 x7
          (pySlice (' ' :: c0 :: c1 :: f :: d1 :: d2 :: d3 :: rest) 21 23)
          (pySlice (' ' :: c0 :: c1 :: f :: d1 :: d2 :: d3 :: rest) 23 25)
          (pySlice (' ' :: c0 :: c1 :: f :: d1 :: d2 :: d3 :: rest) 25 28)
          x12
          (pySlice (' ' :: c0 :: c1 :: f :: d1 :: d2 :: d3 :: rest) 30 39)
          (pySlice (' ' :: c0 :: c1 :: f :: d1 :: d2 :: d3 :: rest) 39 41)
          (pySlice (' ' :: c0 :: c1 :: f :: d1 :: d2 :: d3 :: rest) 42 49)) := by
  have h5x : rest[11]? = some x5 := by simpa using h5
  have h6x : rest[12]? = some x6 := by simpa using h6
  have h7x : rest[13]? = some x7 := by simpa using h7
  have h12x : rest[22]? = some x12 := by simpa using h12
  have h57 : pySlice (' ' :: c0 :: c1 :: f :: d1 :: d2 :: d3 :: rest) 5 7 =
      [d2, d3] :=
    pySlice_at [' ', c0, c1, f, d1] [d2, d3] rest (by simp) (by simp)
      (by simp)
  have hint : pyInt (d1 :: [d2, d3]) = some (parseRaw [d1, d2, d3]) := by
    simp [pyInt, hd1, hd2, hd3]
  simp [_parse_mem, h5x, h6x, h7x, h12x, h57, hint]

/-- C5: any raw wire record whose empty-flag subfield (field P5, the mode
position) decodes to '0' yields an empty record: `empty` is true and
every remaining field (frequency, mode, step, skip, tone fields, duplex,
offset, name) keeps its fresh-record value — nothing else is parsed. -/
theorem C5_empty_flag (c0 c1 f d1 d2 d3 : Char) (rest : List Char)
    (hd1 : d1.isDigit = true) (hd2 : d2.isDigit = true)
    (hd3 : d3.isDigit = true) (hlen : 23 ≤ rest.length)
    (hflag : rest.get? 11 = some '0') :
    ∃ m, _parse_mem (c0 :: c1 :: f :: d1 :: d2 :: d3 :: rest) = some m ∧
      m.empty = true ∧
      m.freq = Memory.init.freq ∧ m.mode = Memory.init.mode ∧
      m.tuning_step = Memory.init.tuning_step ∧
      m.skip = Memory.init.skip ∧ m.tmode = Memory.init.tmode ∧
      m.rtone = Memory.init.rtone ∧ m.ctone = Memory.init.ctone ∧
      m.dtcs = Memory.init.dtcs ∧ m.duplex = Memory.init.duplex ∧
      m.offset = Memory.init.offset ∧ m.name = Memory.init.name := by
  obtain ⟨x6, hx6⟩ := rest_get_of_len (show 12 < rest.length by omega)
  obtain ⟨x7, hx7⟩ := rest_get_of_len (show 13 < rest.length by omega)
  obtain ⟨x12, hx12⟩ := rest_get_of_len (show 22 < rest.length by omega)
  have hev := parse_mem_eval c0 c1 f d1 d2 d3 '0' x6 x7 x12 rest hd1 hd2 hd3
    hflag hx6 hx7 hx12
  by_cases hN : parseRaw [d1, d2, d3] > _UPPER
  · rw [hev, if_pos hN, parse_tail_empty]
    exact ⟨_, rfl, rfl, rfl, rfl, rfl, rfl, rfl, rfl, rfl, rfl, rfl, rfl, rfl⟩
  · rw [hev, if_neg hN, parse_tail_empty]
    exact ⟨_, rfl, rfl, rfl, rfl, rfl, rfl, rfl, rfl, rfl, rfl, rfl, rfl, rfl⟩

/-- Witness for C5: the all-zero response some firmware returns for unset
memories decodes to an empty record. -/
theorem C5_empty_flag_witness :
    ∃ m, _parse_mem
        ('M' :: 'R' :: '0' :: '0' :: '0' :: '0' :: List.replicate 35 '0') =
        some m ∧
      m.empty = true ∧
      m.freq = Memory.init.freq ∧ m.mode = Memory.init.mode ∧
      m.tuning_step = Memory.init.tuning_step ∧
      m.skip = Memory.init.skip ∧ m.tmode = Memory.init.tmode ∧
      m.rtone = Memory.init.rtone ∧ m.ctone = Memory.init.ctone ∧
      m.dtcs = Memory.init.dtcs ∧ m.duplex = Memory.init.duplex ∧
      m.offset = Memory.init.offset ∧ m.name = Memory.init.name :=
  C5_empty_flag 'M' 'R' '0' '0' '0' '0' (List.replicate 35 '0')
    (by decide) (by decide) (by decide) (by decide) (by decide)

-- ===================================================================
-- Lemmas: spec-builder evaluation
-- ===================================================================

lemma exc_ok_bind {A B : Type} (a : A) (f : A → Except SpecErr B) :
    (Except.ok a >>= f) = f a := rfl

lemma exc_err_bind {A B : Type} (e : SpecErr) (f : A → Except SpecErr B) :
    ((Except.error e : Except SpecErr A) >>= f) = Except.error e := rfl

lemma make_mem_spec_eval (mem : Memory) (d off s r c dc mc ti : Nat)
    (h1 : duplexResolve mem = Except.ok (d, off))
    (h2 : stepResolve mem = Except.ok s)
    (h3 : toneResolve mem = Except.ok (r, c, dc))
    (h4 : get_dict_rev _MODES mem.mode = some mc)
    (h5 : idx? _TMODES mem.tmode = some ti) :
    _make_mem_spec mem =
      Except.ok
        [fmtPad 11 mem.freq,
         fmtInt mc,
         fmtInt (if mem.skip = "S" then 1 else 0),
         fmtInt ti,
         fmtPad 2 r,
         fmtPad 2 c,
         fmtPad 3 dc,
         ['0'],
         fmtInt d,
         fmtPad 9 off,
         fmtPad 2 s,
         ['0'],
         mem.name] := by
  simp [_make_mem_spec, h1, h2, h3, h4, h5, keyE, idxE, exc_ok_bind]

lemma make_mem_spec_err {mem : Memory} {e : SpecErr}
    (h : duplexResolve mem = Except.error e) :
    _make_mem_spec mem = Except.error e := by
  simp [_make_mem_spec, h, exc_err_bind]

lemma make_split_spec_err {mem : Memory} {e : SpecErr}
    (h : duplexResolveSplit mem = Except.error e) :
    _make_split_spec mem = Except.error e := by
  simp [_make_split_spec, h, exc_err_bind]

lemma toneResolve_none {mem : Memory} (h : mem.tmode = "") :
    toneResolve mem = Except.ok (0, 0, 0) := by
  simp [toneResolve, h]

lemma toneResolve_tones {mem : Memory} {ri ci di : Nat} (h : ¬ (mem.tmode = ""))
    (hr : idx? _TONES mem.rtone = some ri)
    (hc : idx? _TONES mem.ctone = some ci)
    (hd : idx? chirp_DTCS_CODES mem.dtcs = some di) :
    toneResolve mem = Except.ok (ri + 1, ci + 1, di) := by
  simp [toneResolve, h, idxE, hr, hc, hd, exc_ok_bind]

-- ===================================================================
-- C4: tone-off records encode zero tone fields
-- ===================================================================

/-- C4: whenever the builder succeeds, a record with tone mode off
encodes rtone as "00", ctone as "00" and dtcs as "000" regardless of the
stored tone values, while a record with tone mode on encodes rtone/ctone
as 1-indexed tone-table positions and dtcs as a 0-indexed position. -/
theorem C4_tone_zero_encoding (mem : Memory) (d off s mc ti : Nat)
    (h1 : duplexResolve mem = Except.ok (d, off))
    (h2 : stepResolve mem = Except.ok s)
    (h4 : get_dict_rev _MODES mem.mode = some mc)
    (h5 : idx? _TMODES mem.tmode = some ti) :
    (mem.tmode = "" →
      ∃ fields, _make_mem_spec mem = Except.ok fields ∧
        fields.get? 4 = some ['0', '0'] ∧
        fields.get? 5 = some ['0', '0'] ∧
        fields.get? 6 = some ['0', '0', '0']) ∧
    (∀ ri ci di : Nat, ¬ (mem.tmode = "") →
      idx? _TONES mem.rtone = some ri →
      idx? _TONES mem.ctone = some ci →
      idx? chirp_DTCS_CODES mem.dtcs = some di →
      ∃ fields, _make_mem_spec mem = Except.ok fields ∧
        fields.get? 4 = some (fmtPad 2 (ri + 1)) ∧
        fields.get? 5 = some (fmtPad 2 (ci + 1)) ∧
        fields.get? 6 = some (fmtPad 3 di)) := by
  constructor
  · intro htm
    refine ⟨_, make_mem_spec_eval mem d off s 0 0 0 mc ti h1 h2
      (toneResolve_none htm) h4 h5, ?_, ?_, ?_⟩ <;> rfl
  · intro ri ci di htm hr hc hd
    refine ⟨_, make_mem_spec_eval mem d off s (ri + 1) (ci + 1) di mc ti h1 h2
      (toneResolve_tones htm hr hc hd) h4 h5, ?_, ?_, ?_⟩ <;> rfl

/-- Witness for C4: a tone-off record with stale tone values still
encodes "00"/"00"/"000", and the same record with tone mode "Tone"
encodes the 1-indexed tone positions. -/
theorem C4_tone_zero_encoding_witness :
    (∃ fields,
      _make_mem_spec
          { Memory.init with
            tmode := "", rtone := 885, ctone := 948, dtcs := 125 } =
        Except.ok fields ∧
        fields.get? 4 = some ['0', '0'] ∧
        fields.get? 5 = some ['0', '0'] ∧
        fields.get? 6 = some ['0', '0', '0']) ∧
    (∃ fields,
      _make_mem_spec
          { Memory.init with
            tmode := "Tone", rtone := 885, ctone := 948, dtcs := 125 } =
        Except.ok fields ∧
        fields.get? 4 = some (fmtPad 2 8) ∧
        fields.get? 5 = some (fmtPad 2 10) ∧
        fields.get? 6 = some (fmtPad 3 20)) := by
  constructor
  · exact (C4_tone_zero_encoding
      { Memory.init with
        tmode := "", rtone := 885, ctone := 948, dtcs := 125 } 0 0 0 4 0
      (by decide) (by decide) (by decide) (by decide)).1 rfl
  · exact (C4_tone_zero_encoding
      { Memory.init with
        tmode := "Tone", rtone := 885, ctone := 948, dtcs := 125 } 0 0 0 4 1
      (by decide) (by decide) (by decide) (by decide)).2 7 9 20
      (by decide) (by decide) (by decide) (by decide)

-- ===================================================================
-- Lemmas: the substring guard and unknown duplex values
-- ===================================================================

lemma toList_inj {s t : String} (h : s.toList = t.toList) : s = t := by
  cases s with
  | mk a =>
    cases t with
    | mk b =>
      simp only [String.toList] at h
      exact congrArg String.mk (by simpa using h)

lemma isPrefixB_elim1 (l : List Char) (a : Char)
    (h : isPrefixB l [a] = true) : l = [] ∨ l = [a] := by
  rcases l with _ | ⟨x, _ | ⟨y, t⟩⟩
  · exact Or.inl rfl
  · simp [isPrefixB] at h
    exact Or.inr (by rw [h])
  · simp [isPrefixB] at h

lemma isPrefixB_elim2 (l : List Char) (a b : Char)
    (h : isPrefixB l [a, b] = true) : l = [] ∨ l = [a] ∨ l = [a, b] := by
  rcases l with _ | ⟨x, _ | ⟨y, _ | ⟨z, t⟩⟩⟩
  · exact Or.inl rfl
  · simp [isPrefixB] at h
    exact Or.inr (Or.inl (by rw [h]))
  · simp [isPrefixB] at h
    exact Or.inr (Or.inr (by rw [h.1, h.2]))
  · simp [isPrefixB] at h

lemma isPrefixB_elim3 (l : List Char) (a b c : Char)
    (h : isPrefixB l [a, b, c] = true) :
    l = [] ∨ l = [a] ∨ l = [a, b] ∨ l = [a, b, c] := by
  rcases l with _ | ⟨x, _ | ⟨y, _ | ⟨z, _ | ⟨w, t⟩⟩⟩⟩
  · exact Or.inl rfl
  · simp [isPrefixB] at h
    exact Or.inr (Or.inl (by rw [h]))
  · simp [isPrefixB] at h
    exact Or.inr (Or.inr (Or.inl (by rw [h.1, h.2])))
  · simp [isPrefixB] at h
    exact Or.inr (Or.inr (Or.inr (by rw [h.1, h.2.1, h.2.2])))
  · simp [isPrefixB] at h

lemma isInfixB_elim3 (l : List Char) (a b c : Char)
    (h : isInfixB l [a, b, c] = true) :
    l = [] ∨ l = [a] ∨ l = [b] ∨ l = [c] ∨ l = [a, b] ∨ l = [b, c] ∨
      l = [a, b, c] := by
  have h2 : isPrefixB l [a, b, c] = true ∨ isPrefixB l [b, c] = true ∨
      isPrefixB l [c] = true ∨ l.isEmpty = true := by
    simpa [isInfixB, Bool.or_eq_true] using h
  rcases h2 with h2 | h2 | h2 | h2
  · rcases isPrefixB_elim3 l a b c h2 with rfl | rfl | rfl | rfl <;> tauto
  · rcases isPrefixB_elim2 l b c h2 with rfl | rfl | rfl <;> tauto
  · rcases isPrefixB_elim1 l c h2 with rfl | rfl <;> tauto
  · left
    simpa using h2

lemma pyInStr_duplex_enum (s : String) (h : pyInStr s " +-" = true) :
    s = "" ∨ s = " " ∨ s = "+" ∨ s = "-" ∨ s = " +" ∨ s = "+-" ∨
      s = " +-" := by
  have h2 : isInfixB s.toList [' ', '+', '-'] = true := by
    simpa [pyInStr] using h
  rcases isInfixB_elim3 _ ' ' '+' '-' h2 with h3 | h3 | h3 | h3 | h3 | h3 | h3
  · exact Or.inl (toList_inj (by rw [h3]; rfl))
  · exact Or.inr (Or.inl (toList_inj (by rw [h3]; rfl)))
  · exact Or.inr (Or.inr (Or.inl (toList_inj (by rw [h3]; rfl))))
  · exact Or.inr (Or.inr (Or.inr (Or.inl (toList_inj (by rw [h3]; rfl)))))
  · exact Or.inr (Or.inr (Or.inr (Or.inr (Or.inl
      (toList_inj (by rw [h3]; rfl))))))
  · exact Or.inr (Or.inr (Or.inr (Or.inr (Or.inr (Or.inl
      (toList_inj (by rw [h3]; rfl)))))))
  · exact Or.inr (Or.inr (Or.inr (Or.inr (Or.inr (Or.inr
      (toList_inj (by rw [h3]; rfl)))))))

lemma duplexResolve_unknown {mem : Memory}
    (h : mem.duplex ∉ (["", "+", "-", "=", "split"] : List String)) :
    ∃ e, duplexResolve mem = Except.error e ∧
      duplexResolveSplit mem = Except.error e := by
  by_cases hpy : pyInStr mem.duplex " +-" = true
  · rcases pyInStr_duplex_enum _ hpy with hd | hd | hd | hd | hd | hd | hd
    · exact absurd (by simp [hd]) h
    · refine ⟨SpecErr.keyError, ?_, ?_⟩ <;>
        simp [duplexResolve, duplexResolveSplit, hd,
              show pyInStr " " " +-" = true from by decide,
              show get_dict_rev _DUPLEX " " = none from by decide]
    · exact absurd (by simp [hd]) h
    · exact absurd (by simp [hd]) h
    · refine ⟨SpecErr.keyError, ?_, ?_⟩ <;>
        simp [duplexResolve, duplexResolveSplit, hd,
              show pyInStr " +" " +-" = true from by decide,
              show get_dict_rev _DUPLEX " +" = none from by decide]
    · refine ⟨SpecErr.keyError, ?_, ?_⟩ <;>
        simp [duplexResolve, duplexResolveSplit, hd,
              show pyInStr "+-" " +-" = true from by decide,
              show get_dict_rev _DUPLEX "+-" = none from by decide]
    · refine ⟨SpecErr.keyError, ?_, ?_⟩ <;>
        simp [duplexResolve, duplexResolveSplit, hd,
              show pyInStr " +-" " +-" = true from by decide,
              show get_dict_rev _DUPLEX " +-" = none from by decide]
  · have hs : ¬ (mem.duplex = "split") := by
      intro he
      exact h (by simp [he])
    refine ⟨SpecErr.unsupportedDuplex, ?_, ?_⟩ <;>
      simp [duplexResolve, duplexResolveSplit, hpy, hs]

-- ===================================================================
-- C9: unknown duplex values abort the builders
-- ===================================================================

/-- C9 counterexample: the claim says every duplex outside the known set
reaches the logged defensive branch, but the single-space duplex passes
the substring guard `mem.duplex in " +-"` and dies in the reverse table
lookup (KeyError) instead. -/
theorem C9_counterexample_space_duplex :
    (memSpace.duplex ∉ (["", "+", "-", "=", "split"] : List String)) ∧
    _make_mem_spec memSpace = Except.error SpecErr.keyError ∧
    _make_split_spec memSpace = Except.error SpecErr.keyError ∧
    ¬ (_make_mem_spec memSpace =
        Except.error SpecErr.unsupportedDuplex) := by
  decide

/-- C9 (amended): for every record whose duplex is outside the known set,
both spec builders abort with a fatal error and never produce a wire
spec; the error is the defensive unsupported-duplex branch except for
the anomalous substrings of " +-" (" ", " +", "+-", " +-"), which die in
the duplex reverse lookup instead. -/
theorem C9_unknown_duplex_errors (mem : Memory)
    (h : mem.duplex ∉ (["", "+", "-", "=", "split"] : List String)) :
    (∃ e, _make_mem_spec mem = Except.error e) ∧
    (∃ e, _make_split_spec mem = Except.error e) := by
  obtain ⟨e, h1, h2⟩ := duplexResolve_unknown h
  exact ⟨⟨e, make_mem_spec_err h1⟩, ⟨e, make_split_spec_err h2⟩⟩

/-- Witness for C9 at a concrete unknown duplex value. -/
theorem C9_unknown_duplex_errors_witness :
    (∃ e, _make_mem_spec { Memory.init with duplex := "x" } =
      Except.error e) ∧
    (∃ e, _make_split_spec { Memory.init with duplex := "x" } =
      Except.error e) :=
  C9_unknown_duplex_errors { Memory.init with duplex := "x" } (by decide)

-- ===================================================================
-- C2: encode/decode round trip (code bug at duplex "=")
-- ===================================================================

/-- C2 (code bug): a fully valid record with duplex "=" — a value in
`_DUPLEX`, in `valid_duplexes`, and producible by `_parse_mem` (wire
code 3) — makes `_make_mem_spec` take the unsupported-duplex branch,
because the guard `mem.duplex in " +-"` is a substring test that
excludes "=".  No wire spec is produced, so the claimed round trip is
impossible for duplex "=". -/
theorem C2_duplex_equals_bug :
    memEq.duplex = "=" ∧
    dictGet _DUPLEX 3 = some "=" ∧
    _make_mem_spec memEq = Except.error SpecErr.unsupportedDuplex := by
  decide

-- ===================================================================
-- Lemmas: table resolution facts for valid records
-- ===================================================================

lemma mode_code_facts {m : String}
    (h : m ∈ (["LSB", "USB", "CW", "FM", "AM", "FSK", "CW-R", "FSK-R"] :
      List String)) :
    ∃ mc, get_dict_rev _MODES m = some mc ∧ 0 < mc ∧ mc < 10 ∧
      dictGet _MODES mc = some m := by
  simp only [List.mem_cons, List.not_mem_nil, or_false] at h
  rcases h with rfl | rfl | rfl | rfl | rfl | rfl | rfl | rfl
  · exact ⟨1, by decide, by decide, by decide, by decide⟩
  · exact ⟨2, by decide, by decide, by decide, by decide⟩
  · exact ⟨3, by decide, by decide, by decide, by decide⟩
  · exact ⟨4, by decide, by decide, by decide, by decide⟩
  · exact ⟨5, by decide, by decide, by decide, by decide⟩
  · exact ⟨6, by decide, by decide, by decide, by decide⟩
  · exact ⟨7, by decide, by decide, by decide, by decide⟩
  · exact ⟨9, by decide, by decide, by decide, by decide⟩

lemma duplex_code_facts {d : String} (h : d ∈ (["", "+", "-"] : List String)) :
    ∃ dc, pyInStr d " +-" = true ∧ get_dict_rev _DUPLEX d = some dc ∧
      dc < 10 ∧ dictGet _DUPLEX dc = some d := by
  simp only [List.mem_cons, List.not_mem_nil, or_false] at h
  rcases h with rfl | rfl | rfl
  · exact ⟨0, by decide, by decide, by decide, by decide⟩
  · exact ⟨1, by decide, by decide, by decide, by decide⟩
  · exact ⟨2, by decide, by decide, by decide, by decide⟩

lemma tmode_code_facts {t : String}
    (h : t ∈ (["Tone", "TSQL", "DTCS"] : List String)) :
    ∃ ti, idx? _TMODES t = some ti ∧ ti < 10 ∧ ¬ (t = "") ∧
      pyGet _TMODES (ti : Int) = some t := by
  simp only [List.mem_cons, List.not_mem_nil, or_false] at h
  rcases h with rfl | rfl | rfl
  · exact ⟨1, by decide, by decide, by decide, by decide⟩
  · exact ⟨2, by decide, by decide, by decide, by decide⟩
  · exact ⟨3, by decide, by decide, by decide, by decide⟩

lemma skip_code_facts {s : String} (h : s ∈ (["", "S"] : List String)) :
    ((if s = "S" then 1 else 0) : Nat) < 10 ∧
      pyGet (["", "S"] : List String)
        (((if s = "S" then 1 else 0) : Nat) : Int) = some s := by
  simp only [List.mem_cons, List.not_mem_nil, or_false] at h
  rcases h with rfl | rfl
  · exact ⟨by decide, by decide⟩
  · exact ⟨by decide, by decide⟩

lemma table_idx_facts {α : Type} [DecidableEq α] {l : List α} {x : α}
    (h : x ∈ l) :
    ∃ i, idx? l x = some i ∧ i < l.length ∧ pyGet l (i : Int) = some x := by
  obtain ⟨i, hi⟩ := idx?_of_mem l x h
  exact ⟨i, hi, idx?_lt_length l x i hi,
    by rw [pyGet_coe]; exact idx?_get l x i hi⟩

-- ===================================================================
-- Lemmas: decode-stage evaluation
-- ===================================================================

lemma parse_fields_eval (mnum : Nat) (extd : List Char) (freq : Nat)
    (mode : String) (step : Nat) (_p6 _p7 : Char) (_p8 _p9 _p10 : List Char)
    (_p12 : Char) (_p13 _p16 : List Char)
    (skn : Nat) (skipv : String) (tmn : Nat) (tmode : String)
    (rtn rtone ctn ctone dcn dtcs dpn : Nat) (duplex : String) (offset : Nat)
    (h6 : pyInt [_p6] = some skn)
    (hskip : pyGet (["", "S"] : List String) (skn : Int) = some skipv)
    (h7 : pyInt [_p7] = some tmn)
    (htmode : pyGet _TMODES (tmn : Int) = some tmode)
    (h8 : pyInt _p8 = some rtn)
    (hrtone : pyGet _TONES ((rtn : Int) - 1) = some rtone)
    (h9 : pyInt _p9 = some ctn)
    (hctone : pyGet _TONES ((ctn : Int) - 1) = some ctone)
    (h10 : pyInt _p10 = some dcn)
    (hdtcs : pyGet chirp_DTCS_CODES (dcn : Int) = some dtcs)
    (h12 : pyInt [_p12] = some dpn)
    (hduplex : dictGet _DUPLEX dpn = some duplex)
    (h13 : pyInt _p13 = some offset) :
    parse_fields mnum extd freq mode step _p6 _p7 _p8 _p9 _p10 _p12 _p13
        _p16 =
      some { Memory.init with
             number := mnum, extd_number := extd, freq := freq,
             mode := mode, tuning_step := step, skip := skipv,
             tmode := tmode, rtone := rtone, ctone := ctone, dtcs := dtcs,
             duplex := duplex, offset := offset, name := _p16 } := by
  simp [parse_fields, h6, hskip, h7, htmode, h8, hrtone, h9, hctone, h10,
        hdtcs, h12, hduplex, h13]

lemma parse_tail_eval_normal (mnum : Nat) (extd : List Char)
    (_p4 : List Char) (_p5 _p6 _p7 : Char) (_p8 _p9 _p10 : List Char)
    (_p12 : Char) (_p13 _p14 _p16 : List Char)
    (freq mcode : Nat) (mode : String) (stn step : Nat)
    (h5z : ¬ (_p5 = '0'))
    (h4 : pyInt _p4 = some freq)
    (h5 : pyInt [_p5] = some mcode)
    (hmode : dictGet _MODES mcode = some mode)
    (h14 : pyInt _p14 = some stn)
    (hstep : (if mode ∈ (["AM", "FM"] : List String) then
        pyGet _FM_STEPS (stn : Int)
      else pyGet _SSB_STEPS (stn : Int)) = some step) :
    parse_tail mnum extd false _p4 _p5 _p6 _p7 _p8 _p9 _p10 _p12 _p13 _p14
        _p16 =
      parse_fields mnum extd freq mode step _p6 _p7 _p8 _p9 _p10 _p12 _p13
        _p16 := by
  by_cases hAF : mode ∈ (["AM", "FM"] : List String)
  · rw [if_pos hAF] at hstep
    simp only [parse_tail, h4, h5, hmode, h14, Option.bind_eq_bind,
               Option.some_bind]
    rw [if_neg h5z, if_pos hAF, hstep]
    simp
  · rw [if_neg hAF] at hstep
    simp only [parse_tail, h4, h5, hmode, h14, Option.bind_eq_bind,
               Option.some_bind]
    rw [if_neg h5z, if_neg hAF, hstep]
    simp

lemma parse_tail_eval_end (mnum : Nat) (extd : List Char)
    (_p4 : List Char) (_p5 _p6 _p7 : Char) (_p8 _p9 _p10 : List Char)
    (_p12 : Char) (_p13 _p14 _p16 : List Char)
    (freq mcode : Nat) (mode : String) (stn step : Nat)
    (hmnum : mnum > _UPPER)
    (h5z : ¬ (_p5 = '0'))
    (h4 : pyInt _p4 = some freq)
    (h5 : pyInt [_p5] = some mcode)
    (hmode : dictGet _MODES mcode = some mode)
    (h14 : pyInt _p14 = some stn)
    (hstep : (if mode ∈ (["AM", "FM"] : List String) then
        pyGet _FM_STEPS (stn : Int)
      else pyGet _SSB_STEPS (stn : Int)) = some step) :
    parse_tail mnum extd true _p4 _p5 _p6 _p7 _p8 _p9 _p10 _p12 _p13 _p14
        _p16 =
      some { Memory.init with
             number := mnum, extd_number := extd, freq := freq,
             mode := mode, tuning_step := step,
             immutable := IMMUTABLE_FIELDS } := by
  by_cases hAF : mode ∈ (["AM", "FM"] : List String)
  · rw [if_pos hAF] at hstep
    simp only [parse_tail, h4, h5, hmode, h14, Option.bind_eq_bind,
               Option.some_bind]
    rw [if_neg h5z, if_pos hAF, hstep]
    simp [hmnum]
  · rw [if_neg hAF] at hstep
    simp only [parse_tail, h4, h5, hmode, h14, Option.bind_eq_bind,
               Option.some_bind]
    rw [if_neg h5z, if_neg hAF, hstep]
    simp [hmnum]

-- ===================================================================
-- The encode-then-decode round trip for normal channels
-- ===================================================================

lemma pySlice_offset (pre s : List Char) (a b : Nat) :
    pySlice (pre ++ s) (pre.length + a) (pre.length + b) = pySlice s a b := by
  have hdrop : (pre ++ s).drop (pre.length + a) = s.drop a := by
    rw [← List.drop_drop, List.drop_left]
  rw [pySlice, hdrop, pySlice]
  congr 1
  omega

set_option maxHeartbeats 1000000 in
lemma make_parse_roundtrip (mem : Memory) (c0 c1 : Char)
    (hnum : mem.number ≤ 289)
    (hfreq : mem.freq < 10 ^ 11)
    (hoff : mem.offset < 10 ^ 9)
    (hmode : mem.mode ∈
      (["LSB", "USB", "CW", "FM", "AM", "FSK", "CW-R", "FSK-R"] :
        List String))
    (hstep : mem.tuning_step ∈
      (if mem.mode ∈ (["AM", "FM"] : List String) then _FM_STEPS
       else _SSB_STEPS))
    (htm : mem.tmode ∈ (["Tone", "TSQL", "DTCS"] : List String))
    (hrt : mem.rtone ∈ _TONES) (hct : mem.ctone ∈ _TONES)
    (hdt : mem.dtcs ∈ chirp_DTCS_CODES)
    (hdup : mem.duplex ∈ (["", "+", "-"] : List String))
    (hskip : mem.skip ∈ (["", "S"] : List String))
    (hname : mem.name.length ≤ 7) :
    ∃ fields si,
      idx? (if mem.mode ∈ (["AM", "FM"] : List String) then _FM_STEPS
            else _SSB_STEPS) mem.tuning_step = some si ∧
      _make_mem_spec mem = Except.ok fields ∧
      fields.get? 10 = some (fmtPad 2 si) ∧
      ∃ m', _parse_mem
          (c0 :: c1 :: '0' :: (fmtPad 3 mem.number ++ fields.flatten)) =
          some m' ∧
        m'.number = mem.number ∧ m'.freq = mem.freq ∧
        m'.mode = mem.mode ∧ m'.tuning_step = mem.tuning_step ∧
        m'.rtone = mem.rtone ∧ m'.ctone = mem.ctone ∧
        m'.dtcs = mem.dtcs ∧ m'.duplex = mem.duplex ∧
        m'.offset = mem.offset ∧ m'.skip = mem.skip ∧
        m'.name = mem.name := by
  obtain ⟨mc, hmcr, hmc0, hmc10, hmcf⟩ := mode_code_facts hmode
  obtain ⟨dc, hdpy, hdgr, hdc10, hdcf⟩ := duplex_code_facts hdup
  obtain ⟨ti, htir, hti10, htne, htif⟩ := tmode_code_facts htm
  obtain ⟨ri, hrir, hrilt, hrif⟩ := table_idx_facts hrt
  obtain ⟨ci, hcir, hcilt, hcif⟩ := table_idx_facts hct
  obtain ⟨di, hdir, hdilt, hdif⟩ := table_idx_facts hdt
  obtain ⟨si, hsir, hsilt, hsif⟩ := table_idx_facts hstep
  obtain ⟨hsk10, hskf⟩ := skip_code_facts hskip
  have hTlen : (if mem.mode ∈ (["AM", "FM"] : List String) then _FM_STEPS
      else _SSB_STEPS).length ≤ 10 := by
    by_cases hAF : mem.mode ∈ (["AM", "FM"] : List String) <;>
      simp [hAF, _FM_STEPS, _SSB_STEPS]
  have hTONElen : _TONES.length = 38 := by decide
  have hDTCSlen : chirp_DTCS_CODES.length = 104 := by decide
  have hri100 : ri + 1 < 10 ^ 2 := by
    rw [hTONElen] at hrilt
    norm_num
    omega
  have hci100 : ci + 1 < 10 ^ 2 := by
    rw [hTONElen] at hcilt
    norm_num
    omega
  have hdi1000 : di < 10 ^ 3 := by
    rw [hDTCSlen] at hdilt
    norm_num
    omega
  have hsi100 : si < 10 ^ 2 := by
    norm_num
    omega
  have hnum1000 : mem.number < 10 ^ 3 := by
    norm_num
    omega
  have lnum : (fmtPad 3 mem.number).length = 3 :=
    fmtPad_length (by omega) hnum1000
  have lfreq : (fmtPad 11 mem.freq).length = 11 :=
    fmtPad_length (by omega) hfreq
  have loff : (fmtPad 9 mem.offset).length = 9 :=
    fmtPad_length (by omega) hoff
  have lrt : (fmtPad 2 (ri + 1)).length = 2 := fmtPad_length (by omega) hri100
  have lct : (fmtPad 2 (ci + 1)).length = 2 := fmtPad_length (by omega) hci100
  have ldt : (fmtPad 3 di).length = 3 := fmtPad_length (by omega) hdi1000
  have lst : (fmtPad 2 si).length = 2 := fmtPad_length (by omega) hsi100
  have hdr : duplexResolve mem = Except.ok (dc, mem.offset) := by
    simp [duplexResolve, hdpy, hdgr]
  have hsr : stepResolve mem = Except.ok si := by
    by_cases hAF : mem.mode ∈ (["AM", "FM"] : List String)
    · rw [if_pos hAF] at hsir
      simp [stepResolve, hAF, idxE, hsir]
    · rw [if_neg hAF] at hsir
      simp [stepResolve, hAF, idxE, hsir]
  have htr : toneResolve mem = Except.ok (ri + 1, ci + 1, di) :=
    toneResolve_tones htne hrir hcir hdir
  have hmk := make_mem_spec_eval mem dc mem.offset si (ri + 1) (ci + 1) di
    mc ti hdr hsr htr hmcr htir
  refine ⟨_, si, hsir, hmk, rfl, ?_⟩
  have hskb : (if mem.skip = "S" then 1 else 0 : Nat) < 10 := hsk10
  obtain ⟨n1, n2, n3, hn⟩ := List.length_eq_three.mp lnum
  have hall : (fmtPad 3 mem.number).all Char.isDigit = true :=
    fmtPad_all_digits 3 mem.number
  rw [hn] at hall
  simp only [List.all_cons, List.all_nil, Bool.and_eq_true,
             Bool.and_true] at hall
  obtain ⟨hd1, hd2, hd3⟩ := hall
  have hpr : parseRaw [n1, n2, n3] = mem.number := by
    rw [← hn]
    exact parseRaw_fmtPad 3 mem.number
  have hraweq :
      c0 :: c1 :: '0' ::
        (fmtPad 3 mem.number ++
          ([fmtPad 11 mem.freq,
            fmtInt mc,
            fmtInt (if mem.skip = "S" then 1 else 0),
            fmtInt ti,
            fmtPad 2 (ri + 1),
            fmtPad 2 (ci + 1),
            fmtPad 3 di,
            ['0'],
            fmtInt dc,
            fmtPad 9 mem.offset,
            fmtPad 2 si,
            ['0'],
            mem.name] : List (List Char)).flatten) =
      c0 :: c1 :: '0' :: n1 :: n2 :: n3 ::
        (fmtPad 11 mem.freq ++
          Nat.digitChar mc ::
            Nat.digitChar (if mem.skip = "S" then 1 else 0) ::
              Nat.digitChar ti ::
                (fmtPad 2 (ri + 1) ++
                  (fmtPad 2 (ci + 1) ++
                    (fmtPad 3 di ++
                      '0' :: Nat.digitChar dc ::
                        (fmtPad 9 mem.offset ++
                          (fmtPad 2 si ++ '0' :: mem.name)))))) := by
    rw [hn, fmtInt_lt10 hmc10, fmtInt_lt10 hskb, fmtInt_lt10 hti10,
        fmtInt_lt10 hdc10]
    simp [List.append_assoc]
  rw [hraweq]
  set R : List Char :=
    fmtPad 11 mem.freq ++
      Nat.digitChar mc ::
        Nat.digitChar (if mem.skip = "S" then 1 else 0) ::
          Nat.digitChar ti ::
            (fmtPad 2 (ri + 1) ++
              (fmtPad 2 (ci + 1) ++
                (fmtPad 3 di ++
                  '0' :: Nat.digitChar dc ::
                    (fmtPad 9 mem.offset ++
                      (fmtPad 2 si ++ '0' :: mem.name))))) with hR
  have hg11 : R.get? 11 = some (Nat.digitChar mc) :=
    get?_at (fmtPad 11 mem.freq) _ _ hR lfreq
  have hg12 : R.get? 12 =
      some (Nat.digitChar (if mem.skip = "S" then 1 else 0)) := by
    refine get?_at (fmtPad 11 mem.freq ++ [Nat.digitChar mc]) _
      (Nat.digitChar ti ::
        (fmtPad 2 (ri + 1) ++
          (fmtPad 2 (ci + 1) ++
            (fmtPad 3 di ++
              '0' :: Nat.digitChar dc ::
                (fmtPad 9 mem.offset ++ (fmtPad 2 si ++ '0' :: mem.name))))))
      ?_ ?_
    · rw [hR]
      simp
    · simp [lfreq]
  have hg13 : R.get? 13 = some (Nat.digitChar ti) := by
    refine get?_at
      (fmtPad 11 mem.freq ++
        [Nat.digitChar mc, Nat.digitChar (if mem.skip = "S" then 1 else 0)])
      _
      (fmtPad 2 (ri + 1) ++
        (fmtPad 2 (ci + 1) ++
          (fmtPad 3 di ++
            '0' :: Nat.digitChar dc ::
              (fmtPad 9 mem.offset ++ (fmtPad 2 si ++ '0' :: mem.name)))))
      ?_ ?_
    · rw [hR]
      simp
    · simp [lfreq]
  have hg22 : R.get? 22 = some (Nat.digitChar dc) := by
    refine get?_at
      (fmtPad 11 mem.freq ++
        ([Nat.digitChar mc, Nat.digitChar (if mem.skip = "S" then 1 else 0),
          Nat.digitChar ti] ++
          (fmtPad 2 (ri + 1) ++ (fmtPad 2 (ci + 1) ++ (fmtPad 3 di ++ ['0'])))))
      _
      (fmtPad 9 mem.offset ++ (fmtPad 2 si ++ '0' :: mem.name))
      ?_ ?_
    · rw [hR]
      simp
    · simp [lfreq, lrt, lct, ldt]
  have hev := parse_mem_eval c0 c1 '0' n1 n2 n3 (Nat.digitChar mc)
    (Nat.digitChar (if mem.skip = "S" then 1 else 0)) (Nat.digitChar ti)
    (Nat.digitChar dc) R hd1 hd2 hd3 hg11 hg12 hg13 hg22
  rw [hpr] at hev
  have hcond : ¬ (mem.number > _UPPER) := by
    have hU : _UPPER = 289 := rfl
    omega
  rw [if_neg hcond] at hev
  have hspec : (' ' :: c0 :: c1 :: '0' :: n1 :: n2 :: n3 :: R) =
      [' ', c0, c1, '0', n1, n2, n3] ++ R := by simp
  rw [hspec] at hev
  have hsl4 : pySlice ([' ', c0, c1, '0', n1, n2, n3] ++ R) 7 18 =
      pySlice R 0 11 := by
    simpa using pySlice_offset [' ', c0, c1, '0', n1, n2, n3] R 0 11
  have hsl8 : pySlice ([' ', c0, c1, '0', n1, n2, n3] ++ R) 21 23 =
      pySlice R 14 16 := by
    simpa using pySlice_offset [' ', c0, c1, '0', n1, n2, n3] R 14 16
  have hsl9 : pySlice ([' ', c0, c1, '0', n1, n2, n3] ++ R) 23 25 =
      pySlice R 16 18 := by
    simpa using pySlice_offset [' ', c0, c1, '0', n1, n2, n3] R 16 18
  have hsl10 : pySlice ([' ', c0, c1, '0', n1, n2, n3] ++ R) 25 28 =
      pySlice R 18 21 := by
    simpa using pySlice_offset [' ', c0, c1, '0', n1, n2, n3] R 18 21
  have hsl13 : pySlice ([' ', c0, c1, '0', n1, n2, n3] ++ R) 30 39 =
      pySlice R 23 32 := by
    simpa using pySlice_offset [' ', c0, c1, '0', n1, n2, n3] R 23 32
  have hsl14 : pySlice ([' ', c0, c1, '0', n1, n2, n3] ++ R) 39 41 =
      pySlice R 32 34 := by
    simpa using pySlice_offset [' ', c0, c1, '0', n1, n2, n3] R 32 34
  have hsl16 : pySlice ([' ', c0, c1, '0', n1, n2, n3] ++ R) 42 49 =
      pySlice R 35 42 := by
    simpa using pySlice_offset [' ', c0, c1, '0', n1, n2, n3] R 35 42
  rw [hsl4, hsl8, hsl9, hsl10, hsl13, hsl14, hsl16] at hev
  -- evaluate the slices of R
  have hR4 : pySlice R 0 11 = fmtPad 11 mem.freq := by
    refine pySlice_at []
      (fmtPad 11 mem.freq)
      (Nat.digitChar mc ::
        Nat.digitChar (if mem.skip = "S" then 1 else 0) ::
          Nat.digitChar ti ::
            (fmtPad 2 (ri + 1) ++
              (fmtPad 2 (ci + 1) ++
                (fmtPad 3 di ++
                  '0' :: Nat.digitChar dc ::
                    (fmtPad 9 mem.offset ++ (fmtPad 2 si ++ '0' :: mem.name))))))
      ?_ rfl ?_
    · rw [hR]
      simp
    · simp [lfreq]
  have hR8 : pySlice R 14 16 = fmtPad 2 (ri + 1) := by
    refine pySlice_at
      (fmtPad 11 mem.freq ++
        [Nat.digitChar mc, Nat.digitChar (if mem.skip = "S" then 1 else 0),
         Nat.digitChar ti])
      (fmtPad 2 (ri + 1))
      (fmtPad 2 (ci + 1) ++
        (fmtPad 3 di ++
          '0' :: Nat.digitChar dc ::
            (fmtPad 9 mem.offset ++ (fmtPad 2 si ++ '0' :: mem.name))))
      ?_ ?_ ?_
    · rw [hR]
      simp
    · simp [lfreq]
    · simp [lrt]
  have hR9 : pySlice R 16 18 = fmtPad 2 (ci + 1) := by
    refine pySlice_at
      (fmtPad 11 mem.freq ++
        ([Nat.digitChar mc, Nat.digitChar (if mem.skip = "S" then 1 else 0),
          Nat.digitChar ti] ++ fmtPad 2 (ri + 1)))
      (fmtPad 2 (ci + 1))
      (fmtPad 3 di ++
        '0' :: Nat.digitChar dc ::
          (fmtPad 9 mem.offset ++ (fmtPad 2 si ++ '0' :: mem.name)))
      ?_ ?_ ?_
    · rw [hR]
      simp
    · simp [lfreq, lrt]
    · simp [lct]
  have hR10 : pySlice R 18 21 = fmtPad 3 di := by
    refine pySlice_at
      (fmtPad 11 mem.freq ++
        ([Nat.digitChar mc, Nat.digitChar (if mem.skip = "S" then 1 else 0),
          Nat.digitChar ti] ++ (fmtPad 2 (ri + 1) ++ fmtPad 2 (ci + 1))))
      (fmtPad 3 di)
      ('0' :: Nat.digitChar dc ::
        (fmtPad 9 mem.offset ++ (fmtPad 2 si ++ '0' :: mem.name)))
      ?_ ?_ ?_
    · rw [hR]
      simp
    · simp [lfreq, lrt, lct]
    · simp [ldt]
  have hR13 : pySlice R 23 32 = fmtPad 9 mem.offset := by
    refine pySlice_at
      (fmtPad 11 mem.freq ++
        ([Nat.digitChar mc, Nat.digitChar (if mem.skip = "S" then 1 else 0),
          Nat.digitChar ti] ++
          (fmtPad 2 (ri + 1) ++
            (fmtPad 2 (ci + 1) ++
              (fmtPad 3 di ++ ['0', Nat.digitChar dc])))))
      (fmtPad 9 mem.offset)
      (fmtPad 2 si ++ '0' :: mem.name)
      ?_ ?_ ?_
    · rw [hR]
      simp
    · simp [lfreq, lrt, lct, ldt]
    · simp [loff]
  have hR14 : pySlice R 32 34 = fmtPad 2 si := by
    refine pySlice_at
      (fmtPad 11 mem.freq ++
        ([Nat.digitChar mc, Nat.digitChar (if mem.skip = "S" then 1 else 0),
          Nat.digitChar ti] ++
          (fmtPad 2 (ri + 1) ++
            (fmtPad 2 (ci + 1) ++
              (fmtPad 3 di ++
                ('0' :: Nat.digitChar dc :: fmtPad 9 mem.offset))))))
      (fmtPad 2 si)
      ('0' :: mem.name)
      ?_ ?_ ?_
    · rw [hR]
      simp
    · simp [lfreq, lrt, lct, ldt, loff]
    · simp [lst]
  have hR16 : pySlice R 35 42 = mem.name := by
    refine pySlice_last
      (fmtPad 11 mem.freq ++
        ([Nat.digitChar mc, Nat.digitChar (if mem.skip = "S" then 1 else 0),
          Nat.digitChar ti] ++
          (fmtPad 2 (ri + 1) ++
            (fmtPad 2 (ci + 1) ++
              (fmtPad 3 di ++
                ('0' :: Nat.digitChar dc ::
                  (fmtPad 9 mem.offset ++ (fmtPad 2 si ++ ['0']))))))))
      mem.name ?_ ?_ ?_
    · rw [hR]
      simp
    · simp [lfreq, lrt, lct, ldt, loff, lst]
    · omega
  rw [hR4, hR8, hR9, hR10, hR13, hR14, hR16] at hev
  -- evaluate parse_tail and parse_fields
  have h5z : ¬ (Nat.digitChar mc = '0') := digitChar_ne_zero hmc0 hmc10
  have hstepite : (if mem.mode ∈ (["AM", "FM"] : List String) then
      pyGet _FM_STEPS ((si : Nat) : Int)
    else pyGet _SSB_STEPS ((si : Nat) : Int)) = some mem.tuning_step := by
    by_cases hAF : mem.mode ∈ (["AM", "FM"] : List String)
    · rw [if_pos hAF] at hsif ⊢
      exact hsif
    · rw [if_neg hAF] at hsif ⊢
      exact hsif
  have hptn := parse_tail_eval_normal mem.number Memory.init.extd_number
    (fmtPad 11 mem.freq) (Nat.digitChar mc)
    (Nat.digitChar (if mem.skip = "S" then 1 else 0)) (Nat.digitChar ti)
    (fmtPad 2 (ri + 1)) (fmtPad 2 (ci + 1)) (fmtPad 3 di)
    (Nat.digitChar dc) (fmtPad 9 mem.offset) (fmtPad 2 si) mem.name
    mem.freq mc mem.mode si mem.tuning_step
    h5z (pyInt_fmtPad 11 mem.freq) (pyInt_digitChar hmc10) hmcf
    (pyInt_fmtPad 2 si) hstepite
  rw [hptn] at hev
  have hrtonef : pyGet _TONES (((ri + 1 : Nat) : Int) - 1) =
      some mem.rtone := by
    rw [pyGet_succ_sub_one]
    exact idx?_get _ _ _ hrir
  have hctonef : pyGet _TONES (((ci + 1 : Nat) : Int) - 1) =
      some mem.ctone := by
    rw [pyGet_succ_sub_one]
    exact idx?_get _ _ _ hcir
  have hpf := parse_fields_eval mem.number Memory.init.extd_number mem.freq
    mem.mode mem.tuning_step
    (Nat.digitChar (if mem.skip = "S" then 1 else 0)) (Nat.digitChar ti)
    (fmtPad 2 (ri + 1)) (fmtPad 2 (ci + 1)) (fmtPad 3 di)
    (Nat.digitChar dc) (fmtPad 9 mem.offset) mem.name
    (if mem.skip = "S" then 1 else 0) mem.skip ti mem.tmode
    (ri + 1) mem.rtone (ci + 1) mem.ctone di mem.dtcs dc mem.duplex
    mem.offset
    (pyInt_digitChar hskb) hskf (pyInt_digitChar hti10) htif
    (pyInt_fmtPad 2 (ri + 1)) hrtonef (pyInt_fmtPad 2 (ci + 1)) hctonef
    (pyInt_fmtPad 3 di) hdif (pyInt_digitChar hdc10) hdcf
    (pyInt_fmtPad 9 mem.offset)
  rw [hpf] at hev
  exact ⟨_, hev, rfl, rfl, rfl, rfl, rfl, rfl, rfl, rfl, rfl, rfl, rfl⟩

-- ===================================================================
-- C3: mode-dependent tuning-step table, both directions
-- ===================================================================

/-- C3: the tuning-step wire index is resolved against `_FM_STEPS` when
the record's mode is AM or FM and against `_SSB_STEPS` otherwise, in both
directions: the encoded step field (position 10) is the index into the
table selected by the record's mode, and decoding the resulting wire
record recovers the same mode and the same tuning step, the step being
looked up in the table selected by the decoded mode. -/
theorem C3_step_table_selection (mem : Memory) (c0 c1 : Char)
    (hnum : mem.number ≤ 289)
    (hfreq : mem.freq < 10 ^ 11)
    (hoff : mem.offset < 10 ^ 9)
    (hmode : mem.mode ∈
      (["LSB", "USB", "CW", "FM", "AM", "FSK", "CW-R", "FSK-R"] :
        List String))
    (hstep : mem.tuning_step ∈
      (if mem.mode ∈ (["AM", "FM"] : List String) then _FM_STEPS
       else _SSB_STEPS))
    (htm : mem.tmode ∈ (["Tone", "TSQL", "DTCS"] : List String))
    (hrt : mem.rtone ∈ _TONES) (hct : mem.ctone ∈ _TONES)
    (hdt : mem.dtcs ∈ chirp_DTCS_CODES)
    (hdup : mem.duplex ∈ (["", "+", "-"] : List String))
    (hskip : mem.skip ∈ (["", "S"] : List String))
    (hname : mem.name.length ≤ 7) :
    ∃ fields si,
      idx? (if mem.mode ∈ (["AM", "FM"] : List String) then _FM_STEPS
            else _SSB_STEPS) mem.tuning_step = some si ∧
      _make_mem_spec mem = Except.ok fields ∧
      fields.get? 10 = some (fmtPad 2 si) ∧
      ∃ m', _parse_mem
          (c0 :: c1 :: '0' :: (fmtPad 3 mem.number ++ fields.flatten)) =
          some m' ∧
        m'.mode = mem.mode ∧ m'.tuning_step = mem.tuning_step := by
  obtain ⟨fields, si, h1, h2, h3, m', h4, _, _, hmode', hstep', _⟩ :=
    make_parse_roundtrip mem c0 c1 hnum hfreq hoff hmode hstep htm hrt hct
      hdt hdup hskip hname
  exact ⟨fields, si, h1, h2, h3, m', h4, hmode', hstep'⟩

/-- Witness for C3: an AM record with tuning step 6.25 kHz resolves its
step against the FM/AM table (index 1) and round-trips. -/
theorem C3_step_table_selection_witness :
    ∃ fields si,
      idx? (if ({ Memory.init with
                  number := 5, freq := 14205000, mode := "AM",
                  tuning_step := 625, tmode := "Tone",
                  name := ['T', 'E', 'S', 'T'] } : Memory).mode ∈
              (["AM", "FM"] : List String) then _FM_STEPS
            else _SSB_STEPS)
          ({ Memory.init with
             number := 5, freq := 14205000, mode := "AM",
             tuning_step := 625, tmode := "Tone",
             name := ['T', 'E', 'S', 'T'] } : Memory).tuning_step =
        some si ∧
      _make_mem_spec
          { Memory.init with
            number := 5, freq := 14205000, mode := "AM",
            tuning_step := 625, tmode := "Tone",
            name := ['T', 'E', 'S', 'T'] } = Except.ok fields ∧
      fields.get? 10 = some (fmtPad 2 si) ∧
      ∃ m', _parse_mem
          ('M' :: 'R' :: '0' ::
            (fmtPad 3 ({ Memory.init with
                         number := 5, freq := 14205000, mode := "AM",
                         tuning_step := 625, tmode := "Tone",
                         name := ['T', 'E', 'S', 'T'] } : Memory).number ++
              fields.flatten)) = some m' ∧
        m'.mode = ({ Memory.init with
                     number := 5, freq := 14205000, mode := "AM",
                     tuning_step := 625, tmode := "Tone",
                     name := ['T', 'E', 'S', 'T'] } : Memory).mode ∧
        m'.tuning_step =
          ({ Memory.init with
             number := 5, freq := 14205000, mode := "AM",
             tuning_step := 625, tmode := "Tone",
             name := ['T', 'E', 'S', 'T'] } : Memory).tuning_step :=
  C3_step_table_selection
    { Memory.init with
      number := 5, freq := 14205000, mode := "AM", tuning_step := 625,
      tmode := "Tone", name := ['T', 'E', 'S', 'T'] } 'M' 'R'
    (by decide) (by decide) (by decide) (by decide) (by decide) (by decide)
    (by decide) (by decide) (by decide) (by decide) (by decide) (by decide)

-- ===================================================================
-- C6: sweep-limit sub-channel immutability on decode
-- ===================================================================

/-- C6 counterexample: a non-empty response for wire memory 290 with
sub-flag digit '0' decodes to the sweep-limit record the device labels
"290 Start", yet `_parse_mem` marks nothing immutable and keeps parsing
the remaining fields (the tone mode comes out as "Tone", not the
untouched default) — the early-immutable return only fires for sub-flag
'1', the "End" sub-channels. -/
theorem C6_counterexample_start_not_immutable :
    ∃ m, _parse_mem rawStart290 = some m ∧
      m.number = 290 ∧ m.extd_number = ("290 Start").toList ∧
      m.empty = false ∧ m.immutable = [] ∧ m.tmode = "Tone" ∧
      m.name = ("HELLO").toList :=
  ⟨{ Memory.init with
     number := 290, extd_number := ("290 Start").toList,
     freq := 14200000, mode := "FM", tuning_step := 500,
     tmode := "Tone", rtone := 885, ctone := 885, dtcs := 23,
     name := ("HELLO").toList },
   by decide, rfl, rfl, rfl, rfl, rfl, rfl⟩

set_option maxHeartbeats 1000000 in
/-- C6 (amended): a non-empty wire record carrying an extended-range
number together with sub-flag digit '1' — the sweep-limit "End"
sub-channel — has its frequency, mode and tuning step parsed, the field
set name/tmode/rtone/ctone/dtcs/duplex/offset/mode/tuning_step/skip
marked immutable, and every remaining field left at its fresh-record
value (the early return skips them). -/
theorem C6_end_subchannel_immutable (c0 c1 : Char)
    (wnum freq mcode st step : Nat) (mode : String) (mid tail : List Char)
    (h289 : 289 < wnum) (h1000 : wnum < 1000)
    (hfreq : freq < 10 ^ 11)
    (hmc : dictGet _MODES mcode = some mode)
    (hmc0 : 0 < mcode) (hmc10 : mcode < 10)
    (hst : st < 100)
    (hstep : (if mode ∈ (["AM", "FM"] : List String) then _FM_STEPS
              else _SSB_STEPS).get? st = some step)
    (hmid : mid.length = 20) :
    _parse_mem
        (c0 :: c1 :: '1' ::
          (fmtPad 3 wnum ++
            (fmtPad 11 freq ++
              Nat.digitChar mcode :: (mid ++ (fmtPad 2 st ++ tail))))) =
      some { Memory.init with
             number := parse_remap wnum true,
             extd_number := _index_to_memid (parse_remap wnum true),
             freq := freq, mode := mode, tuning_step := step,
             immutable := IMMUTABLE_FIELDS } := by
  have hnum1000 : wnum < 10 ^ 3 := by
    norm_num
    omega
  have hst100 : st < 10 ^ 2 := by
    norm_num
    omega
  have lnum : (fmtPad 3 wnum).length = 3 := fmtPad_length (by omega) hnum1000
  have lfreq : (fmtPad 11 freq).length = 11 := fmtPad_length (by omega) hfreq
  have lst : (fmtPad 2 st).length = 2 := fmtPad_length (by omega) hst100
  obtain ⟨n1, n2, n3, hn⟩ := List.length_eq_three.mp lnum
  have hall : (fmtPad 3 wnum).all Char.isDigit = true :=
    fmtPad_all_digits 3 wnum
  rw [hn] at hall
  simp only [List.all_cons, List.all_nil, Bool.and_eq_true,
             Bool.and_true] at hall
  obtain ⟨hd1, hd2, hd3⟩ := hall
  have hpr : parseRaw [n1, n2, n3] = wnum := by
    rw [← hn]
    exact parseRaw_fmtPad 3 wnum
  rw [hn]
  set R : List Char :=
    fmtPad 11 freq ++
      Nat.digitChar mcode :: (mid ++ (fmtPad 2 st ++ tail)) with hR
  have hRlen : 34 ≤ R.length := by
    rw [hR]
    simp [lfreq, hmid, lst]
    omega
  have hg11 : R.get? 11 = some (Nat.digitChar mcode) :=
    get?_at (fmtPad 11 freq) _ _ hR lfreq
  obtain ⟨x6, hx6⟩ := rest_get_of_len (show 12 < R.length by omega)
  obtain ⟨x7, hx7⟩ := rest_get_of_len (show 13 < R.length by omega)
  obtain ⟨x12, hx12⟩ := rest_get_of_len (show 22 < R.length by omega)
  have hev := parse_mem_eval c0 c1 '1' n1 n2 n3 (Nat.digitChar mcode)
    x6 x7 x12 R hd1 hd2 hd3 hg11 hx6 hx7 hx12
  rw [hpr] at hev
  have hcond : wnum > _UPPER := by
    have hU : _UPPER = 289 := rfl
    omega
  rw [if_pos hcond] at hev
  have hbeq : (('1' : Char) == '1') = true := rfl
  rw [hbeq] at hev
  have hspec : (' ' :: c0 :: c1 :: '1' :: n1 :: n2 :: n3 :: R) =
      [' ', c0, c1, '1', n1, n2, n3] ++ R := by simp
  rw [hspec] at hev
  have hsl4 : pySlice ([' ', c0, c1, '1', n1, n2, n3] ++ R) 7 18 =
      pySlice R 0 11 := by
    simpa using pySlice_offset [' ', c0, c1, '1', n1, n2, n3] R 0 11
  have hsl14 : pySlice ([' ', c0, c1, '1', n1, n2, n3] ++ R) 39 41 =
      pySlice R 32 34 := by
    simpa using pySlice_offset [' ', c0, c1, '1', n1, n2, n3] R 32 34
  rw [hsl4, hsl14] at hev
  have hR4 : pySlice R 0 11 = fmtPad 11 freq := by
    refine pySlice_at []
      (fmtPad 11 freq)
      (Nat.digitChar mcode :: (mid ++ (fmtPad 2 st ++ tail))) ?_ rfl ?_
    · rw [hR]
      simp
    · simp [lfreq]
  have hR14 : pySlice R 32 34 = fmtPad 2 st := by
    refine pySlice_at
      (fmtPad 11 freq ++ (Nat.digitChar mcode :: mid))
      (fmtPad 2 st) tail ?_ ?_ ?_
    · rw [hR]
      simp
    · simp [lfreq, hmid]
    · simp [lst]
  rw [hR4, hR14] at hev
  have h5z : ¬ (Nat.digitChar mcode = '0') := digitChar_ne_zero hmc0 hmc10
  have hmnum : parse_remap wnum true > _UPPER := by
    have hU : _UPPER = 289 := rfl
    simp [parse_remap, hU]
    omega
  have hstepite : (if mode ∈ (["AM", "FM"] : List String) then
      pyGet _FM_STEPS ((st : Nat) : Int)
    else pyGet _SSB_STEPS ((st : Nat) : Int)) = some step := by
    by_cases hAF : mode ∈ (["AM", "FM"] : List String)
    · rw [if_pos hAF] at hstep
      rw [if_pos hAF, pyGet_coe]
      exact hstep
    · rw [if_neg hAF] at hstep
      rw [if_neg hAF, pyGet_coe]
      exact hstep
  have hpte := parse_tail_eval_end (parse_remap wnum true)
    (_index_to_memid (parse_remap wnum true))
    (fmtPad 11 freq) (Nat.digitChar mcode) x6 x7
    (pySlice ([' ', c0, c1, '1', n1, n2, n3] ++ R) 21 23)
    (pySlice ([' ', c0, c1, '1', n1, n2, n3] ++ R) 23 25)
    (pySlice ([' ', c0, c1, '1', n1, n2, n3] ++ R) 25 28)
    x12
    (pySlice ([' ', c0, c1, '1', n1, n2, n3] ++ R) 30 39)
    (fmtPad 2 st)
    (pySlice ([' ', c0, c1, '1', n1, n2, n3] ++ R) 42 49)
    freq mcode mode st step
    hmnum h5z (pyInt_fmtPad 11 freq) (pyInt_digitChar hmc10) hmc
    (pyInt_fmtPad 2 st) hstepite
  rw [hpte] at hev
  exact hev

/-- Witness for C6: the flag-'1' response for wire memory 290 (logical
"290 End") decodes to an immutable record with only frequency, mode and
step populated. -/
theorem C6_end_subchannel_immutable_witness :
    _parse_mem
        ('M' :: 'R' :: '1' ::
          (fmtPad 3 290 ++
            (fmtPad 11 14200000 ++
              Nat.digitChar 4 ::
                (List.replicate 20 '0' ++
                  (fmtPad 2 0 ++ ("0HELLO").toList))))) =
      some { Memory.init with
             number := parse_remap 290 true,
             extd_number := _index_to_memid (parse_remap 290 true),
             freq := 14200000, mode := "FM", tuning_step := 500,
             immutable := IMMUTABLE_FIELDS } :=
  C6_end_subchannel_immutable 'M' 'R' 290 14200000 4 0 500 "FM"
    (List.replicate 20 '0') (("0HELLO").toList)
    (by decide) (by decide) (by decide) (by decide) (by decide) (by decide)
    (by decide) (by decide) (by decide)
